import Mathlib

/-!
A verification development for the flight-formation matching-and-optimization
engine of the `deltahacks12` repository.

The Python sources are shallowly embedded: Python floats are idealized as real
numbers, `datetime` values as real timestamps in seconds since the epoch,
`None`-returning functions as `Option`-valued functions, and the external
SciPy SLSQP solver as an abstract solve outcome together with the contract
that a successful solve satisfies the constraints handed to it.  Because the
embedding computes with `ℝ` (the sources use transcendental functions such as
`sin`, `atan2` and `acos`), the definitions live in a `noncomputable section`;
all concrete evaluations in the theorems below are carried out by `simp` /
`norm_num` reasoning instead of kernel reduction.

Embedded modules:
* `pyback/main.py`       — geometry kernel, pair finders, boost corridors;
* `scripts/optimal_departure_time.py` — flight-following optimizer;
* `scripts/generate_formation_edges.py` — feasibility score, edge generator.
-/

open scoped Classical

noncomputable section

/-! ### Geometry kernel (`pyback/main.py`, also shared by the scripts)

`haversine_distance`, `calculate_bearing` and the helpers below are defined
identically (same formulas, same Earth radius 6371 km) in `pyback/main.py`,
`scripts/optimal_departure_time.py` and `scripts/generate_formation_edges.py`;
they are embedded once. -/

/-- `math.radians`. -/
def radiansOf (x : ℝ) : ℝ := x * Real.pi / 180

/-- `math.degrees`. -/
def degreesOf (x : ℝ) : ℝ := x * 180 / Real.pi

/-- `math.atan2 y x` (the C-library two-argument arctangent). -/
def atan2 (y x : ℝ) : ℝ :=
  if 0 < x then Real.arctan (y / x)
  else if x < 0 ∧ 0 ≤ y then Real.arctan (y / x) + Real.pi
  else if x < 0 ∧ y < 0 then Real.arctan (y / x) - Real.pi
  else if x = 0 ∧ 0 < y then Real.pi / 2
  else if x = 0 ∧ y < 0 then -(Real.pi / 2)
  else 0

/-- `haversine_distance(lat1, lon1, lat2, lon2)`: great-circle distance in km,
Earth radius 6371 km. -/
def haversine_distance (lat1 lon1 lat2 lon2 : ℝ) : ℝ :=
  let R : ℝ := 6371
  let lat1_rad := radiansOf lat1
  let lat2_rad := radiansOf lat2
  let dlat := radiansOf (lat2 - lat1)
  let dlon := radiansOf (lon2 - lon1)
  let a := Real.sin (dlat / 2) ^ 2 +
    Real.cos lat1_rad * Real.cos lat2_rad * Real.sin (dlon / 2) ^ 2
  let c := 2 * atan2 (Real.sqrt a) (Real.sqrt (1 - a))
  R * c

/-- `calculate_bearing(lat1, lon1, lat2, lon2)`: initial bearing in degrees,
normalized to `[0, 360)` by `(math.degrees(bearing) + 360) % 360`.
The Python float `%` is embedded as subtraction of `360 * ⌊x / 360⌋`. -/
def mod360 (x : ℝ) : ℝ := x - 360 * (⌊x / 360⌋ : ℤ)

def calculate_bearing (lat1 lon1 lat2 lon2 : ℝ) : ℝ :=
  let lat1_rad := radiansOf lat1
  let lat2_rad := radiansOf lat2
  let dlon := radiansOf (lon2 - lon1)
  let y := Real.sin dlon * Real.cos lat2_rad
  let x := Real.cos lat1_rad * Real.sin lat2_rad -
    Real.sin lat1_rad * Real.cos lat2_rad * Real.cos dlon
  mod360 (degreesOf (atan2 y x) + 360)

/-- The bearing-bisector formula from `calculate_bisector_direction`:
`diff = (bearing2 - bearing1 + 360) % 360; bisector = (bearing1 + diff/2) % 360`. -/
def bisector (bearing1 bearing2 : ℝ) : ℝ :=
  let diff := mod360 (bearing2 - bearing1 + 360)
  mod360 (bearing1 + diff / 2)

/-- `calculate_bisector_direction(lat1,lon1,...,lat4,lon4)`. -/
def calculate_bisector_direction (lat1 lon1 lat2 lon2 lat3 lon3 lat4 lon4 : ℝ) : ℝ :=
  bisector (calculate_bearing lat1 lon1 lat2 lon2) (calculate_bearing lat3 lon3 lat4 lon4)

/-- `destination_point(lat, lon, bearing, distance)`: forward geodesic
projection, returning `(lat2, lon2)` in degrees. -/
def destination_point (lat lon bearing distance : ℝ) : ℝ × ℝ :=
  let R : ℝ := 6371
  let lat_rad := radiansOf lat
  let lon_rad := radiansOf lon
  let bearing_rad := radiansOf bearing
  let lat2_rad := Real.arcsin (Real.sin lat_rad * Real.cos (distance / R) +
    Real.cos lat_rad * Real.sin (distance / R) * Real.cos bearing_rad)
  let lon2_rad := lon_rad + atan2
    (Real.sin bearing_rad * Real.sin (distance / R) * Real.cos lat_rad)
    (Real.cos (distance / R) - Real.sin lat_rad * Real.sin lat2_rad)
  (degreesOf lat2_rad, degreesOf lon2_rad)

/-- `calculate_angle_between_paths(...)`: angle in degrees between the two
course vectors (arrival − departure of each flight), `None` when a vector is
degenerate or the courses oppose (`dot < 0`). -/
def calculate_angle_between_paths (dep1_lat dep1_lon arr1_lat arr1_lon
    dep2_lat dep2_lon arr2_lat arr2_lon : ℝ) : Option ℝ :=
  let vector1_lat := arr1_lat - dep1_lat
  let vector1_lon := arr1_lon - dep1_lon
  let vector2_lat := arr2_lat - dep2_lat
  let vector2_lon := arr2_lon - dep2_lon
  let dot_product := vector1_lat * vector2_lat + vector1_lon * vector2_lon
  let magnitude1 := Real.sqrt (vector1_lat ^ 2 + vector1_lon ^ 2)
  let magnitude2 := Real.sqrt (vector2_lat ^ 2 + vector2_lon ^ 2)
  if magnitude1 = 0 ∨ magnitude2 = 0 then none
  else if dot_product < 0 then none
  else
    let cos_angle := dot_product / (magnitude1 * magnitude2)
    some (degreesOf (Real.arccos (max (-1) (min 1 cos_angle))))

/-- `within_three_hours(time1, time2)`: wall-clock minutes-of-day distance with
midnight wraparound, at most 3 hours.  A `datetime`'s `hour*60 + minute` is
`⌊t/60⌋ % 1440` of its epoch timestamp `t` (the parse-failure `except` branch
is unreachable for the well-typed timestamps assumed here, spec §7). -/
def minutes_of_day (t : ℝ) : ℤ := (⌊t / 60⌋ : ℤ) % 1440

def within_three_hours (t1 t2 : ℝ) : Prop :=
  min |minutes_of_day t1 - minutes_of_day t2|
    (1440 - |minutes_of_day t1 - minutes_of_day t2|) ≤ 180

/-- Result record of `find_line_intersection`. -/
structure SegIntersection where
  lat : ℝ
  lon : ℝ
  t1 : ℝ
  t2 : ℝ

/-- `find_line_intersection(p1, p2, p3, p4)`: planar (lon/lat-as-Cartesian)
intersection of the chords `p1p2` and `p3p4`; `None` for near-parallel
segments or when an interpolation parameter leaves `[0, 1]`. -/
def find_line_intersection (p1_lat p1_lon p2_lat p2_lon p3_lat p3_lon
    p4_lat p4_lon : ℝ) : Option SegIntersection :=
  let x1 := p1_lon; let y1 := p1_lat
  let x2 := p2_lon; let y2 := p2_lat
  let x3 := p3_lon; let y3 := p3_lat
  let x4 := p4_lon; let y4 := p4_lat
  let denom := (x1 - x2) * (y3 - y4) - (y1 - y2) * (x3 - x4)
  if |denom| < 1 / 10 ^ 10 then none
  else
    let t := ((x1 - x3) * (y3 - y4) - (y1 - y3) * (x3 - x4)) / denom
    let u := -((x1 - x2) * (y1 - y3) - (y1 - y2) * (x1 - x3)) / denom
    if 0 ≤ t ∧ t ≤ 1 ∧ 0 ≤ u ∧ u ≤ 1 then
      some ⟨y1 + t * (y2 - y1), x1 + t * (x2 - x1), t, u⟩
    else none

/-- `calculate_time_at_intersection(departure_time, arrival_time, proportion)`:
`dep_timestamp + flight_duration * proportion`, on epoch timestamps. -/
def calculate_time_at_intersection (departure_time arrival_time proportion : ℝ) : ℝ :=
  departure_time + (arrival_time - departure_time) * proportion

/-- `within_hours(time1, time2, hours)`. -/
def within_hours (time1 time2 hours : ℝ) : Prop :=
  |time1 - time2| ≤ hours * 3600

/-! ### Flight data model and candidate pair finders (`pyback/main.py`) -/

/-- `RawFlightData`: raw flight record from the database.  The two schedule
strings are embedded as their parsed epoch timestamps (seconds); `flight_no`
is dropped (it duplicates `flight_id` as an identifier and is never compared). -/
structure RawFlightData where
  flight_id : ℕ
  departure_airport : String
  arrival_airport : String
  scheduled_departure : ℝ
  scheduled_arrival : ℝ
  dep_lat : ℝ
  dep_lon : ℝ
  arr_lat : ℝ
  arr_lon : ℝ

inductive PairType where
  | similar
  | intersecting
deriving DecidableEq

/-- `FlightPair`.  The source repackages each `RawFlightData` into a `Flight`
record carrying exactly the same fields; the embedding keeps the raw record. -/
structure FlightPair where
  ptype : PairType
  flight1 : RawFlightData
  flight2 : RawFlightData
  angle : ℝ
  intersection : Option (ℝ × ℝ)

/-- Generic `for i in range(n): for j in range(i+1, n)` pair enumeration:
every unordered pair of positions is examined exactly once, in order, and
`mk x y` is emitted for those satisfying `P x y`. -/
def pairScan {α β : Type} (P : α → α → Prop) (mk : α → α → β) : List α → List β
  | [] => []
  | x :: rest => ((rest.filter fun y => decide (P x y)).map (mk x)) ++ pairScan P mk rest

/-- Shorthand for `calculate_angle_between_paths` on two flights' course
vectors, exactly as called by both pair finders. -/
def flight_angle (f g : RawFlightData) : Option ℝ :=
  calculate_angle_between_paths f.dep_lat f.dep_lon f.arr_lat f.arr_lon
    g.dep_lat g.dep_lon g.arr_lat g.arr_lon

/-- The per-pair acceptance test of `find_similar_flight_pairs`: not the same
route, shares a departure or arrival airport, angle defined and ≤ 45°, and the
applicable scheduled times-of-day within 3 hours. -/
def similar_pred (f g : RawFlightData) : Prop :=
  ¬(f.departure_airport = g.departure_airport ∧ f.arrival_airport = g.arrival_airport) ∧
  (f.departure_airport = g.departure_airport ∨ f.arrival_airport = g.arrival_airport) ∧
  (match flight_angle f g with
   | none => False
   | some angle => ¬ angle > 45) ∧
  ((f.departure_airport = g.departure_airport ∧
      within_three_hours f.scheduled_departure g.scheduled_departure) ∨
   (f.arrival_airport = g.arrival_airport ∧
      within_three_hours f.scheduled_arrival g.scheduled_arrival))

/-- The `FlightPair` record built by `find_similar_flight_pairs` for an
accepted pair (when `similar_pred f g` holds, `flight_angle f g` is `some`,
so the `getD 0` default is never read). -/
def mkSimilarPair (f g : RawFlightData) : FlightPair :=
  { ptype := .similar, flight1 := f, flight2 := g,
    angle := (flight_angle f g).getD 0, intersection := none }

def find_similar_flight_pairs (flights : List RawFlightData) : List FlightPair :=
  pairScan similar_pred mkSimilarPair flights

/-- Shorthand for `find_line_intersection` on two flights' chords, exactly as
called by `find_intersecting_flight_pairs`. -/
def flight_chord_intersection (f g : RawFlightData) : Option SegIntersection :=
  find_line_intersection f.dep_lat f.dep_lon f.arr_lat f.arr_lon
    g.dep_lat g.dep_lon g.arr_lat g.arr_lon

/-- The per-pair acceptance test of `find_intersecting_flight_pairs`: neither
airport shared, angle defined and ≤ 10°, chords intersect, and the two
interpolated times at the intersection are within 1 hour. -/
def intersecting_pred (f g : RawFlightData) : Prop :=
  ¬(f.departure_airport = g.departure_airport ∨ f.arrival_airport = g.arrival_airport) ∧
  (match flight_angle f g with
   | none => False
   | some angle =>
     ¬ angle > 10 ∧
     (match flight_chord_intersection f g with
      | none => False
      | some inter =>
        within_hours
          (calculate_time_at_intersection f.scheduled_departure f.scheduled_arrival inter.t1)
          (calculate_time_at_intersection g.scheduled_departure g.scheduled_arrival inter.t2)
          1))

/-- The `FlightPair` record built by `find_intersecting_flight_pairs` for an
accepted pair (as above, the defaults are never read when the predicate holds). -/
def mkIntersectingPair (f g : RawFlightData) : FlightPair :=
  { ptype := .intersecting, flight1 := f, flight2 := g,
    angle := (flight_angle f g).getD 0,
    intersection := (flight_chord_intersection f g).map fun r => (r.lat, r.lon) }

def find_intersecting_flight_pairs (flights : List RawFlightData) : List FlightPair :=
  pairScan intersecting_pred mkIntersectingPair flights

/-! ### Boost corridors (`pyback/main.py`: `create_boost_path_from_pair`,
`find_boost_zone_entry_exit`) -/

/-- `calculate_boost_path_efficiency(pair, flight_num)` (the `flight_num`
argument is unused in the source). -/
def calculate_boost_path_efficiency (pair : FlightPair) : ℝ :=
  (1 - pair.angle / 45) * (if pair.ptype = .intersecting then 1.2 else 1)

/-- The boost-path dict built by `create_boost_path_from_pair`. -/
structure BoostPath where
  start_lat : ℝ
  start_lon : ℝ
  bearing : ℝ
  length_km : ℝ
  efficiency : ℝ

/-- `create_boost_path_from_pair(pair)`.  For an intersecting pair with an
intersection point the corridor **starts at the intersection** with length
400 km (the source comment says "extends 200km in each direction from
intersection", but `start_lat/lon` is set to the intersection itself);
for a similar pair it starts at the shared airport with length
`0.8 * min(dist1, dist2)`. -/
def create_boost_path_from_pair (pair : FlightPair) : BoostPath :=
  let bis := calculate_bisector_direction
    pair.flight1.dep_lat pair.flight1.dep_lon pair.flight1.arr_lat pair.flight1.arr_lon
    pair.flight2.dep_lat pair.flight2.dep_lon pair.flight2.arr_lat pair.flight2.arr_lon
  match pair.ptype, pair.intersection with
  | .intersecting, some ipt =>
    { start_lat := ipt.1, start_lon := ipt.2, bearing := bis, length_km := 400,
      efficiency := calculate_boost_path_efficiency pair }
  | _, _ =>
    let start_lat := if pair.flight1.departure_airport = pair.flight2.departure_airport
      then pair.flight1.dep_lat else pair.flight1.arr_lat
    let start_lon := if pair.flight1.departure_airport = pair.flight2.departure_airport
      then pair.flight1.dep_lon else pair.flight1.arr_lon
    let dist1 := haversine_distance pair.flight1.dep_lat pair.flight1.dep_lon
      pair.flight1.arr_lat pair.flight1.arr_lon
    let dist2 := haversine_distance pair.flight2.dep_lat pair.flight2.dep_lon
      pair.flight2.arr_lat pair.flight2.arr_lon
    { start_lat := start_lat, start_lon := start_lon, bearing := bis,
      length_km := min dist1 dist2 * 0.8,
      efficiency := calculate_boost_path_efficiency pair }

/-- The objective of `find_boost_zone_entry_exit`: total travel time through
the corridor at unit normal speed and boost speed 1.1. -/
def boost_objective (dep_lat dep_lon arr_lat arr_lon boost_start_lat boost_start_lon
    boost_bearing : ℝ) (params : ℝ × ℝ) : ℝ :=
  let entry := destination_point boost_start_lat boost_start_lon boost_bearing params.1
  let exit := destination_point boost_start_lat boost_start_lon boost_bearing params.2
  let d1 := haversine_distance dep_lat dep_lon entry.1 entry.2
  let d2 := haversine_distance entry.1 entry.2 exit.1 exit.2
  let d3 := haversine_distance exit.1 exit.2 arr_lat arr_lon
  d1 / 1 + d2 / 1.1 + d3 / 1

/-- `constraint_order(params)`: exit at least 10 km after entry. -/
def constraint_order (params : ℝ × ℝ) : ℝ := params.2 - params.1 - 10

/-- `constraint_entry_positive(params)`. -/
def constraint_entry_positive (params : ℝ × ℝ) : ℝ := params.1

/-- `constraint_exit_max(params)`. -/
def constraint_exit_max (boost_length : ℝ) (params : ℝ × ℝ) : ℝ :=
  boost_length - params.2

/-- The box bounds `[(0, boost_length), (0, boost_length)]` passed to SLSQP. -/
def slsqp_in_bounds (boost_length : ℝ) (params : ℝ × ℝ) : Prop :=
  0 ≤ params.1 ∧ params.1 ≤ boost_length ∧ 0 ≤ params.2 ∧ params.2 ≤ boost_length

/-- Contract of the external SciPy SLSQP call for this problem instance:
`solve = some params` models `minimize(...).success` with solution `params`
(a successful constrained solve satisfies the inequality constraints and box
bounds it was given); `solve = none` models non-convergence or a raised
exception, both of which the source maps to `return None`. -/
def SolverMeetsConstraints (boost_length : ℝ) (solve : Option (ℝ × ℝ)) : Prop :=
  ∀ params, solve = some params →
    0 ≤ constraint_order params ∧
    0 ≤ constraint_entry_positive params ∧
    0 ≤ constraint_exit_max boost_length params ∧
    slsqp_in_bounds boost_length params

/-- The entry/exit dicts returned by `find_boost_zone_entry_exit`
(`distance_along_boost` is the distance from the corridor start). -/
structure BoostZonePoint where
  lat : ℝ
  lon : ℝ
  distance_along_boost : ℝ

/-- `find_boost_zone_entry_exit(...)`, parametrized by the abstract solver
outcome `solve` (see `SolverMeetsConstraints`). -/
def find_boost_zone_entry_exit (solve : Option (ℝ × ℝ))
    (boost_start_lat boost_start_lon boost_bearing : ℝ) :
    Option (BoostZonePoint × BoostZonePoint) :=
  match solve with
  | none => none
  | some (entry_dist, exit_dist) =>
    let entry := destination_point boost_start_lat boost_start_lon boost_bearing entry_dist
    let exit := destination_point boost_start_lat boost_start_lon boost_bearing exit_dist
    some (⟨entry.1, entry.2, entry_dist⟩, ⟨exit.1, exit.2, exit_dist⟩)

/-- The set of along-corridor offsets (measured from the corridor start point)
admissible to `find_boost_zone_entry_exit`: its box bounds and constraints keep
both `entry_dist` and `exit_dist` in `[0, length]` from `start`. -/
def boost_offset_admissible (length_km d : ℝ) : Prop := 0 ≤ d ∧ d ≤ length_km

/-- Modelled from the spec: a corridor "centered at the intersection,
... fixed length 400 km (200 km each side of center)" admits signed offsets
from the intersection point in `[−200, 200]`.  This definition follows the
spec's words (no code in the repository realizes it) and is compared against
the corridor the code actually builds. -/
def spec_centered_offset_admissible (d : ℝ) : Prop := -200 ≤ d ∧ d ≤ 200

/-! ### Flight-following optimizer (`scripts/optimal_departure_time.py`) -/

def MAX_FORMATION_DISTANCE_KM : ℝ := 50
def MAX_TIME_DIFF_MINUTES_FOLLOWING : ℝ := 20
def FORMATION_EFFICIENCY_GAIN : ℝ := 0.05
def MAX_DETOUR_DISTANCE_KM : ℝ := 200
def MAX_DIVERGENCE_KM : ℝ := 100
def FLIGHT_SPEED_KMH : ℝ := 800
def DEPARTURE_TIME_OFFSETS : List ℝ := [-60, -40, -20, 0, 20, 40, 60]

/-- One sampled trajectory node: `{lat, lon, timestamp}` with the timestamp in
epoch seconds. -/
structure TrajectoryNode where
  lat : ℝ
  lon : ℝ
  ts : ℝ

/-- The admissibility filter inside `find_intercept_point`'s loop: the node is
skipped when its distance from our origin exceeds `MAX_DETOUR_DISTANCE_KM * 2`
("Allow larger range for direct path") or when the time to reach it (minutes)
is negative or above 240. -/
def intercept_admissible (origin_lat origin_lon departure_time : ℝ)
    (node : TrajectoryNode) : Prop :=
  haversine_distance origin_lat origin_lon node.lat node.lon ≤ MAX_DETOUR_DISTANCE_KM * 2 ∧
  0 ≤ (node.ts - departure_time) / 60 ∧ (node.ts - departure_time) / 60 ≤ 240

/-- The score minimized by `find_intercept_point`:
`intercept_distance + abs(time_to_intercept - intercept_distance / FLIGHT_SPEED_KMH * 60) * 0.1`. -/
def intercept_score (origin_lat origin_lon departure_time : ℝ)
    (node : TrajectoryNode) : ℝ :=
  let d := haversine_distance origin_lat origin_lon node.lat node.lon
  let time_to_intercept := (node.ts - departure_time) / 60
  d + |time_to_intercept - d / FLIGHT_SPEED_KMH * 60| * 0.1

/-- Pairs each list element with its index, starting at `k`. -/
def withIndexFrom {α : Type} (k : ℕ) : List α → List (ℕ × α)
  | [] => []
  | x :: rest => (k, x) :: withIndexFrom (k + 1) rest

/-- The best-so-far scan of `find_intercept_point`: keep the admissible node
with the strictly smallest score (`float('inf')` is modelled by the `none`
accumulator, which any admissible score beats). -/
def fip_go (adm : TrajectoryNode → Prop) (score : TrajectoryNode → ℝ) :
    List (ℕ × TrajectoryNode) → Option (TrajectoryNode × ℕ × ℝ) →
    Option (TrajectoryNode × ℕ × ℝ)
  | [], best => best
  | (i, n) :: rest, best =>
    if adm n then
      match best with
      | none => fip_go adm score rest (some (n, i, score n))
      | some (bn, bi, bs) =>
        if score n < bs then fip_go adm score rest (some (n, i, score n))
        else fip_go adm score rest (some (bn, bi, bs))
    else fip_go adm score rest best

/-- `find_intercept_point(origin_lat, origin_lon, flight_nodes, departure_time)`:
scan the candidate's nodes from index 1 on (never its own origin node). -/
def find_intercept_point (origin_lat origin_lon : ℝ) (flight_nodes : List TrajectoryNode)
    (departure_time : ℝ) : Option (TrajectoryNode × ℕ) :=
  (fip_go (intercept_admissible origin_lat origin_lon departure_time)
      (intercept_score origin_lat origin_lon departure_time)
      (withIndexFrom 1 (flight_nodes.drop 1)) none).map
    fun r => (r.1, r.2.1)

/-- The forward scan of `find_departure_point` from the node after the
intercept: leave at the previous node as soon as the distance to our
destination increases by more than `MAX_DIVERGENCE_KM` over one segment. -/
def fdp_scan (dest_lat dest_lon : ℝ) : TrajectoryNode → ℕ → List TrajectoryNode →
    TrajectoryNode × ℕ
  | prev, pidx, [] => (prev, pidx)
  | prev, pidx, n :: rest =>
    if haversine_distance n.lat n.lon dest_lat dest_lon >
        haversine_distance prev.lat prev.lon dest_lat dest_lon + MAX_DIVERGENCE_KM
    then (prev, pidx)
    else fdp_scan dest_lat dest_lon n (pidx + 1) rest

/-- `find_departure_point(flight_nodes, intercept_index, dest_lat, dest_lon)`.
On an empty node list the Python `flight_nodes[-1]` would raise (modelled as
`none`); otherwise the function always returns a node: either the node before
the first divergence past `MAX_DIVERGENCE_KM`, or the last node. -/
def find_departure_point (flight_nodes : List TrajectoryNode) (intercept_index : ℕ)
    (dest_lat dest_lon : ℝ) : Option (TrajectoryNode × ℕ) :=
  if hne : flight_nodes = [] then none
  else if h : intercept_index < flight_nodes.length then
    some (fdp_scan dest_lat dest_lon (flight_nodes.get ⟨intercept_index, h⟩)
      intercept_index (flight_nodes.drop (intercept_index + 1)))
  else some (flight_nodes.getLast hne, flight_nodes.length - 1)

/-- The per-segment distance summed by the following loop of
`calculate_path_with_following` (`node2 = flight_nodes[i+1] if i+1 < len ...`;
out-of-range indices, which cannot occur for the in-bounds index ranges this
is called with, read a zero node). -/
def following_segment (flight_nodes : List TrajectoryNode) (i : ℕ) : ℝ :=
  let node1 := flight_nodes.getD i ⟨0, 0, 0⟩
  let node2 := if i + 1 < flight_nodes.length then flight_nodes.getD (i + 1) ⟨0, 0, 0⟩
    else node1
  haversine_distance node1.lat node1.lon node2.lat node2.lon

/-- `sum(segment_dist for i in range(intercept_index, departure_index))`. -/
def following_distance_calc (flight_nodes : List TrajectoryNode)
    (intercept_index departure_index : ℕ) : ℝ :=
  (((List.range (departure_index - intercept_index)).map
    fun k => following_segment flight_nodes (intercept_index + k)).sum)

/-- The path/cost record returned by `calculate_path_with_following` (the
synthesized display node list is omitted; every cost field is kept). -/
structure PathResult where
  intercept_node : TrajectoryNode
  intercept_index : ℕ
  departure_node : TrajectoryNode
  departure_index : ℕ
  detour_distance : ℝ
  following_distance : ℝ
  continuation_distance : ℝ
  total_cost : ℝ
  solo_cost : ℝ
  savings : ℝ
  savings_percent : ℝ

/-- `calculate_path_with_following(origin, dest, departure_time, flight_nodes)`:
detour to the intercept point, follow at a 5 % discount until the departure
point, then continue solo; `savings` compares against flying the same total
distance solo. -/
def calculate_path_with_following (origin_lat origin_lon dest_lat dest_lon
    departure_time : ℝ) (flight_nodes : List TrajectoryNode) : Option PathResult :=
  match find_intercept_point origin_lat origin_lon flight_nodes departure_time with
  | none => none
  | some (intercept_node, intercept_index) =>
    match find_departure_point flight_nodes intercept_index dest_lat dest_lon with
    | none => none
    | some (departure_node, departure_index) =>
      let detour_distance := haversine_distance origin_lat origin_lon
        intercept_node.lat intercept_node.lon
      let following_distance := following_distance_calc flight_nodes
        intercept_index departure_index
      let following_cost := following_distance * (1 - FORMATION_EFFICIENCY_GAIN)
      let continuation_distance := haversine_distance departure_node.lat departure_node.lon
        dest_lat dest_lon
      let total_cost := detour_distance + following_cost + continuation_distance
      let solo_cost := detour_distance + following_distance + continuation_distance
      let savings := solo_cost - total_cost
      some { intercept_node := intercept_node, intercept_index := intercept_index,
             departure_node := departure_node, departure_index := departure_index,
             detour_distance := detour_distance, following_distance := following_distance,
             continuation_distance := continuation_distance,
             total_cost := total_cost, solo_cost := solo_cost, savings := savings,
             savings_percent := if solo_cost > 0 then savings / solo_cost * 100 else 0 }

/-- A candidate flight to follow, as produced by
`find_candidate_flights_to_follow` (which is a MongoDB query plus a bearing
filter; the optimizer below is parametrized by its result). -/
structure Candidate where
  flight_id : ℕ
  flight_nodes : List TrajectoryNode

/-- The cost-analysis part of the result dict of
`evaluate_departure_time_with_following` (display-only fields omitted). -/
structure FollowingResult where
  followed_flight_id : Option ℕ
  total_cost : ℝ
  solo_cost : ℝ
  savings : ℝ
  savings_percent : ℝ
  connected_segments : ℕ

/-- The candidate loop of `evaluate_departure_time_with_following`: keep the
path with minimal `total_cost` among candidates whose `savings_percent > 0`
(`best_cost = float('inf')` is the `none` accumulator; the accumulator always
stores the cost of the stored path). -/
def select_best_candidate (origin_lat origin_lon dest_lat dest_lon departure_time : ℝ) :
    List Candidate → Option (PathResult × ℕ) → Option (PathResult × ℕ)
  | [], best => best
  | c :: rest, best =>
    match calculate_path_with_following origin_lat origin_lon dest_lat dest_lon
        departure_time c.flight_nodes with
    | none => select_best_candidate origin_lat origin_lon dest_lat dest_lon
        departure_time rest best
    | some path_result =>
      match best with
      | none =>
        if path_result.savings_percent > 0 then
          select_best_candidate origin_lat origin_lon dest_lat dest_lon departure_time
            rest (some (path_result, c.flight_id))
        else
          select_best_candidate origin_lat origin_lon dest_lat dest_lon departure_time
            rest none
      | some (best_path, best_fid) =>
        if path_result.savings_percent > 0 ∧ path_result.total_cost < best_path.total_cost
        then
          select_best_candidate origin_lat origin_lon dest_lat dest_lon departure_time
            rest (some (path_result, c.flight_id))
        else
          select_best_candidate origin_lat origin_lon dest_lat dest_lon departure_time
            rest (some (best_path, best_fid))

/-- The direct-path fallback result (used both when no candidates exist and
when no candidate yields positive savings). -/
def direct_result (origin_lat origin_lon dest_lat dest_lon : ℝ) : FollowingResult :=
  let total_distance := haversine_distance origin_lat origin_lon dest_lat dest_lon
  { followed_flight_id := none, total_cost := total_distance,
    solo_cost := total_distance, savings := 0, savings_percent := 0,
    connected_segments := 0 }

/-- `evaluate_departure_time_with_following(...)`, parametrized by the
candidate list returned from the trajectory store. -/
def evaluate_departure_time_with_following (candidates : List Candidate)
    (origin_lat origin_lon dest_lat dest_lon departure_time : ℝ) : FollowingResult :=
  match select_best_candidate origin_lat origin_lon dest_lat dest_lon departure_time
      candidates none with
  | none => direct_result origin_lat origin_lon dest_lat dest_lon
  | some (best_path, best_fid) =>
    { followed_flight_id := some best_fid,
      total_cost := best_path.total_cost, solo_cost := best_path.solo_cost,
      savings := best_path.savings, savings_percent := best_path.savings_percent,
      connected_segments := best_path.departure_index - best_path.intercept_index }

/-- The offset loop of `find_optimal_departure_time_binary_search`: among the
evaluations keep the minimum-cost one with positive `savings_percent`. -/
def pick_best_evaluation : List (ℝ × FollowingResult) → Option (ℝ × FollowingResult) →
    Option (ℝ × FollowingResult)
  | [], best => best
  | (t, r) :: rest, best =>
    match best with
    | none =>
      if r.savings_percent > 0 then pick_best_evaluation rest (some (t, r))
      else pick_best_evaluation rest none
    | some (bt, br) =>
      if r.savings_percent > 0 ∧ r.total_cost < br.total_cost then
        pick_best_evaluation rest (some (t, r))
      else pick_best_evaluation rest (some (bt, br))

/-- `find_optimal_departure_time_binary_search(...)`: evaluate the fixed
departure-time offsets, keep the best positive-savings evaluation, and fall
back to the scheduled time's own evaluation otherwise (offset 0 is in the
offset list, so the fallback dict lookup is exactly the evaluation at
`scheduled_departure`).  `candidatesAt t` models the candidate query for
departure time `t`. -/
def find_optimal_departure_time (candidatesAt : ℝ → List Candidate)
    (origin_lat origin_lon dest_lat dest_lon scheduled_departure : ℝ) :
    ℝ × FollowingResult :=
  let evals := DEPARTURE_TIME_OFFSETS.map fun offset =>
    (scheduled_departure + offset * 60,
     evaluate_departure_time_with_following (candidatesAt (scheduled_departure + offset * 60))
       origin_lat origin_lon dest_lat dest_lon (scheduled_departure + offset * 60))
  match pick_best_evaluation evals none with
  | some (best_time, best_result) =>
    if best_result.savings_percent > 0 then (best_time, best_result)
    else (scheduled_departure,
      evaluate_departure_time_with_following (candidatesAt scheduled_departure)
        origin_lat origin_lon dest_lat dest_lon scheduled_departure)
  | none => (scheduled_departure,
      evaluate_departure_time_with_following (candidatesAt scheduled_departure)
        origin_lat origin_lon dest_lat dest_lon scheduled_departure)

/-! ### Feasibility score and formation edges (`scripts/generate_formation_edges.py`) -/

def MAX_DISTANCE_KM : ℝ := 200
def MAX_TIME_DIFF_MINUTES : ℝ := 30

/-- `COMPUTE_HEADING = False` (heading similarity disabled in the source
configuration). -/
def COMPUTE_HEADING : Bool := false

/-- `heading_similarity(heading1, heading2)` (only consulted when heading is
enabled). -/
def heading_similarity (heading1 heading2 : Option ℝ) : ℝ :=
  match heading1, heading2 with
  | some h1, some h2 =>
    let diff := |h1 - h2|
    let diff2 := if diff > 180 then 360 - diff else diff
    max 0 (1 - diff2 / 180)
  | _, _ => 0

/-- `compute_feasibility_score(node1, node2, distance_km, time_diff_seconds,
heading_sim)`: the `node1`/`node2` arguments are unused in the source and are
dropped here. -/
def compute_feasibility_score (distance_km time_diff_seconds : ℝ)
    (heading_sim : Option ℝ) : ℝ :=
  let max_dist := MAX_DISTANCE_KM * 1000
  let distance_m := distance_km * 1000
  let distance_score := max 0 (1 - distance_m / max_dist)
  let max_time_sec := MAX_TIME_DIFF_MINUTES * 60
  let time_score := max 0 (1 - |time_diff_seconds| / max_time_sec)
  match heading_sim, COMPUTE_HEADING with
  | some hs, true => 0.4 * distance_score + 0.4 * time_score + 0.2 * hs
  | _, _ => 0.5 * distance_score + 0.5 * time_score

/-- A `flight_nodes` document as read by the edge generator. -/
structure FlightNode where
  flight_id : ℕ
  lat : ℝ
  lon : ℝ
  ts : ℝ

/-- A `formation_edges` document (the source additionally rounds
`distance_km` and `feasibility_score` for storage; the rounding is
display-precision only and is not modelled). -/
structure FormationEdge where
  flight1_id : ℕ
  flight2_id : ℕ
  timestamp1 : ℝ
  timestamp2 : ℝ
  time_diff_seconds : ℝ
  distance_km : ℝ
  feasibility_score : ℝ

/-- The edge document built for a node/candidate pair (with
`COMPUTE_HEADING = False`, `heading_sim` stays `None`). -/
def edge_of (node candidate : FlightNode) : FormationEdge :=
  let distance_km := haversine_distance node.lat node.lon candidate.lat candidate.lon
  let time_diff := candidate.ts - node.ts
  { flight1_id := node.flight_id, flight2_id := candidate.flight_id,
    timestamp1 := node.ts, timestamp2 := candidate.ts,
    time_diff_seconds := time_diff, distance_km := distance_km,
    feasibility_score := compute_feasibility_score distance_km time_diff none }

/-- The edge-generation loop: for every processed node, the geospatial query
result `nearby node` is scanned and a candidate is skipped unless
`node_flight_id < candidate_flight_id` (the dedup guard); `nearby` abstracts
the MongoDB `$near` query (which already excludes same-flight nodes — the
guard alone is what the emitted edges rely on). -/
def generate_formation_edges (nodes : List FlightNode)
    (nearby : FlightNode → List FlightNode) : List FormationEdge :=
  nodes.flatMap fun node =>
    ((nearby node).filter fun candidate =>
      decide (node.flight_id < candidate.flight_id)).map (edge_of node)

/-! ## C7 — feasibility-score bounds -/

/-- **C7.** For every valid input (`distance_km ≥ 0`, any time difference) the
feasibility score lies in `[0, 1]`; with heading disabled it equals
`0.5 * distance_score + 0.5 * time_score` for
`distance_score = max 0 (1 − distance_m / max_distance_m)` and
`time_score = max 0 (1 − |Δt| / max_time_seconds)`; and the score is `1`
exactly when the distance and the time difference are both zero. -/
theorem c7_feasibility_score_spec (d t : ℝ) (hd : 0 ≤ d) :
    (0 ≤ compute_feasibility_score d t none ∧ compute_feasibility_score d t none ≤ 1) ∧
    compute_feasibility_score d t none =
      0.5 * max 0 (1 - d * 1000 / (MAX_DISTANCE_KM * 1000)) +
      0.5 * max 0 (1 - |t| / (MAX_TIME_DIFF_MINUTES * 60)) ∧
    (compute_feasibility_score d t none = 1 ↔ d = 0 ∧ t = 0) := by
  have hscore : compute_feasibility_score d t none =
      0.5 * max 0 (1 - d * 1000 / (MAX_DISTANCE_KM * 1000)) +
      0.5 * max 0 (1 - |t| / (MAX_TIME_DIFF_MINUTES * 60)) := rfl
  set ds := max 0 (1 - d * 1000 / (MAX_DISTANCE_KM * 1000)) with hds
  set ts := max 0 (1 - |t| / (MAX_TIME_DIFF_MINUTES * 60)) with hts
  have hds0 : 0 ≤ ds := le_max_left _ _
  have hts0 : 0 ≤ ts := le_max_left _ _
  have hds1 : ds ≤ 1 := by
    rw [hds]
    have h1 : 0 ≤ d * 1000 / (MAX_DISTANCE_KM * 1000) := by
      have : (0:ℝ) < MAX_DISTANCE_KM * 1000 := by norm_num [MAX_DISTANCE_KM]
      positivity
    have : 1 - d * 1000 / (MAX_DISTANCE_KM * 1000) ≤ 1 := by linarith
    exact max_le (by norm_num) this
  have hts1 : ts ≤ 1 := by
    rw [hts]
    have h1 : 0 ≤ |t| / (MAX_TIME_DIFF_MINUTES * 60) := by
      have : (0:ℝ) < MAX_TIME_DIFF_MINUTES * 60 := by norm_num [MAX_TIME_DIFF_MINUTES]
      positivity
    have : 1 - |t| / (MAX_TIME_DIFF_MINUTES * 60) ≤ 1 := by linarith
    exact max_le (by norm_num) this
  refine ⟨⟨by rw [hscore]; linarith, by rw [hscore]; linarith⟩, hscore, ?_⟩
  rw [hscore]
  constructor
  · intro h1
    have hdseq : ds = 1 := by linarith
    have htseq : ts = 1 := by linarith
    have hd0 : d = 0 := by
      rcases max_choice 0 (1 - d * 1000 / (MAX_DISTANCE_KM * 1000)) with hc | hc
      · rw [hds] at hdseq; rw [hc] at hdseq; norm_num at hdseq
      · rw [hds] at hdseq; rw [hc] at hdseq
        have : d * 1000 / (MAX_DISTANCE_KM * 1000) = 0 := by linarith
        rw [div_eq_zero_iff] at this
        rcases this with h | h
        · linarith
        · norm_num [MAX_DISTANCE_KM] at h
    have ht0 : t = 0 := by
      rcases max_choice 0 (1 - |t| / (MAX_TIME_DIFF_MINUTES * 60)) with hc | hc
      · rw [hts] at htseq; rw [hc] at htseq; norm_num at htseq
      · rw [hts] at htseq; rw [hc] at htseq
        have : |t| / (MAX_TIME_DIFF_MINUTES * 60) = 0 := by linarith
        rw [div_eq_zero_iff] at this
        rcases this with h | h
        · exact abs_eq_zero.mp h
        · norm_num [MAX_TIME_DIFF_MINUTES] at h
    exact ⟨hd0, ht0⟩
  · rintro ⟨rfl, rfl⟩
    norm_num [hds, hts, MAX_DISTANCE_KM, MAX_TIME_DIFF_MINUTES]

/-- Witness for C7 at distance 0 and time difference 0. -/
theorem c7_witness : compute_feasibility_score 0 0 none = 1 :=
  (c7_feasibility_score_spec 0 0 (le_refl 0)).2.2.mpr ⟨rfl, rfl⟩

/-! ## C10 — canonical id order of formation edges -/

/-- **C10.** Every formation edge emitted by the edge generator has
`flight1_id < flight2_id` (canonical order), and hence never pairs two nodes
of the same flight. -/
theorem c10_formation_edges_canonical_order
    (nodes : List FlightNode) (nearby : FlightNode → List FlightNode) :
    (generate_formation_edges nodes nearby).Forall
      fun e => e.flight1_id < e.flight2_id ∧ e.flight1_id ≠ e.flight2_id := by
  rw [List.forall_iff_forall_mem]
  intro e he
  simp only [generate_formation_edges, List.mem_flatMap, List.mem_map,
    List.mem_filter] at he
  obtain ⟨n, _, c, ⟨_, hlt⟩, rfl⟩ := he
  have h : n.flight_id < c.flight_id := of_decide_eq_true hlt
  exact ⟨h, Nat.ne_of_lt h⟩

/-! ## C9 — `find_departure_point` is total on nonempty trajectories -/

/-- The scan of `find_departure_point` moves the index forward by at most the
number of remaining nodes. -/
theorem fdp_scan_idx_bounds (dest_lat dest_lon : ℝ) :
    ∀ (rest : List TrajectoryNode) (prev : TrajectoryNode) (pidx : ℕ),
      pidx ≤ (fdp_scan dest_lat dest_lon prev pidx rest).2 ∧
      (fdp_scan dest_lat dest_lon prev pidx rest).2 ≤ pidx + rest.length := by
  intro rest
  induction rest with
  | nil => intro prev pidx; simp [fdp_scan]
  | cons n rest ih =>
    intro prev pidx
    by_cases hdiv : haversine_distance n.lat n.lon dest_lat dest_lon >
        haversine_distance prev.lat prev.lon dest_lat dest_lon + MAX_DIVERGENCE_KM
    · simp only [fdp_scan, if_pos hdiv]
      omega
    · simp only [fdp_scan, if_neg hdiv]
      have := ih n (pidx + 1)
      simp only [List.length_cons]
      omega

/-- **C9.** For every nonempty trajectory and in-range intercept index,
`find_departure_point` returns a node (its `Optional` return is never `None`),
and the departure index `d` satisfies `intercept_index ≤ d ≤ length − 1`.
Consequently `connected_segments = d − intercept_index ≥ 0` and the caller's
missing-departure-point branch is unreachable. -/
theorem c9_find_departure_point_total (flight_nodes : List TrajectoryNode)
    (intercept_index : ℕ) (dest_lat dest_lon : ℝ)
    (hne : flight_nodes ≠ []) (hidx : intercept_index < flight_nodes.length) :
    ∃ dn didx,
      find_departure_point flight_nodes intercept_index dest_lat dest_lon =
        some (dn, didx) ∧
      intercept_index ≤ didx ∧ didx ≤ flight_nodes.length - 1 := by
  have hb := fdp_scan_idx_bounds dest_lat dest_lon
    (flight_nodes.drop (intercept_index + 1))
    (flight_nodes.get ⟨intercept_index, hidx⟩) intercept_index
  rw [List.length_drop] at hb
  refine ⟨(fdp_scan dest_lat dest_lon (flight_nodes.get ⟨intercept_index, hidx⟩)
      intercept_index (flight_nodes.drop (intercept_index + 1))).1,
    (fdp_scan dest_lat dest_lon (flight_nodes.get ⟨intercept_index, hidx⟩)
      intercept_index (flight_nodes.drop (intercept_index + 1))).2, ?_, hb.1, ?_⟩
  · rw [find_departure_point, dif_neg hne, dif_pos hidx]
  · omega

/-- Witness for C9 on a one-node trajectory. -/
theorem c9_witness :
    ∃ dn didx,
      find_departure_point [(⟨0, 0, 0⟩ : TrajectoryNode)] 0 0 0 = some (dn, didx) ∧
      0 ≤ didx ∧ didx ≤ ([(⟨0, 0, 0⟩ : TrajectoryNode)] : List TrajectoryNode).length - 1 :=
  c9_find_departure_point_total [⟨0, 0, 0⟩] 0 0 0 (by simp) (by simp)

/-! ## C6 — the bearing bisector and the shorter circular arc -/

theorem mod360_nonneg (x : ℝ) : 0 ≤ mod360 x := by
  have h := Int.sub_floor_div_mul_nonneg x (by norm_num : (0:ℝ) < 360)
  unfold mod360
  linarith

theorem mod360_lt (x : ℝ) : mod360 x < 360 := by
  have h := Int.sub_floor_div_mul_lt x (by norm_num : (0:ℝ) < 360)
  unfold mod360
  linarith

theorem mod360_add_int_mul (x : ℝ) (k : ℤ) : mod360 (x + 360 * k) = mod360 x := by
  unfold mod360
  have h : (x + 360 * k) / 360 = x / 360 + k := by
    field_simp
    ring
  rw [h, Int.floor_add_int]
  push_cast
  ring

theorem exists_int_mod360 (x : ℝ) : ∃ k : ℤ, x = mod360 x + 360 * k := by
  refine ⟨⌊x / 360⌋, ?_⟩
  unfold mod360
  ring

theorem mod360_congr (x y : ℝ) (k : ℤ) (h : x = y + 360 * k) : mod360 x = mod360 y := by
  rw [h, mod360_add_int_mul]

theorem mod360_eq_self {x : ℝ} (h0 : 0 ≤ x) (h1 : x < 360) : mod360 x = x := by
  unfold mod360
  have hfl : ⌊x / 360⌋ = 0 := by
    rw [Int.floor_eq_iff]
    constructor
    · push_cast
      positivity
    · push_cast
      rw [div_lt_iff₀ (by norm_num : (0:ℝ) < 360)]
      linarith
  rw [hfl]
  push_cast
  ring

/-- Circular distance between two bearings (length of the shorter arc). -/
def circular_distance (a b : ℝ) : ℝ := min (mod360 (a - b)) (mod360 (b - a))

/-- Modelled from the spec: `m` is "the bearing halfway between two bearings,
taking the shorter circular arc" — `m` is at circular distance
`circular_distance b1 b2 / 2` from each of `b1` and `b2`.  No code in the
repository computes this; it is the property the spec ascribes to the
formula in `calculate_bisector_direction` and is compared against it. -/
def is_shorter_arc_midpoint (m b1 b2 : ℝ) : Prop :=
  circular_distance b1 m = circular_distance b1 b2 / 2 ∧
  circular_distance m b2 = circular_distance b1 b2 / 2

/-- **C6, counterexample.** For `b1 = 90`, `b2 = 0` the code's bisector is
`225`, which is *not* halfway along the shorter arc between the two bearings
(the shorter-arc halfway point is `45`): the formula halves the clockwise
sweep from `b1` to `b2`, not the shorter arc. -/
theorem c6_counterexample :
    bisector 90 0 = 225 ∧ ¬ is_shorter_arc_midpoint (bisector 90 0) 90 0 := by
  have h270 : mod360 270 = 270 := mod360_eq_self (by norm_num) (by norm_num)
  have h225 : mod360 225 = 225 := mod360_eq_self (by norm_num) (by norm_num)
  have h135 : mod360 135 = 135 := mod360_eq_self (by norm_num) (by norm_num)
  have h90 : mod360 90 = 90 := mod360_eq_self (by norm_num) (by norm_num)
  have hneg135 : mod360 (-135) = 225 := by
    have h := mod360_congr (-135) 225 (-1) (by norm_num)
    rw [h, h225]
  have hneg90 : mod360 (-90) = 270 := by
    have h := mod360_congr (-90) 270 (-1) (by norm_num)
    rw [h, h270]
  have hb : bisector 90 0 = 225 := by
    show mod360 (90 + mod360 (0 - 90 + 360) / 2) = 225
    rw [show (0 : ℝ) - 90 + 360 = 270 by norm_num, h270,
      show (90 : ℝ) + 270 / 2 = 225 by norm_num, h225]
  refine ⟨hb, ?_⟩
  rw [hb]
  intro hmid
  have h1 := hmid.1
  unfold circular_distance at h1
  have e1 : (90 : ℝ) - 225 = -135 := by norm_num
  have e2 : (225 : ℝ) - 90 = 135 := by norm_num
  have e3 : (90 : ℝ) - 0 = 90 := by norm_num
  have e4 : (0 : ℝ) - 90 = -90 := by norm_num
  rw [e1, e2, e3, e4, hneg135, h135, h90, hneg90] at h1
  norm_num at h1

/-- **C6, amended.** For bearings `b1, b2 ∈ [0, 360)` the code's bisector
equals `((b2 − b1 + 360) % 360) / 2 + b1`, taken mod 360 — the midpoint of
the arc swept *clockwise from `b1` to `b2`* — and it is the halfway point of
the shorter circular arc exactly when this clockwise sweep `(b2 − b1) % 360`
is at most `180` (both directions: for a sweep above `180°` the bisector is
not the shorter-arc midpoint). -/
theorem c6_amended (b1 b2 : ℝ) (h10 : 0 ≤ b1) (h11 : b1 < 360)
    (h20 : 0 ≤ b2) (h21 : b2 < 360) :
    bisector b1 b2 = mod360 (mod360 (b2 - b1 + 360) / 2 + b1) ∧
    (is_shorter_arc_midpoint (bisector b1 b2) b1 b2 ↔ mod360 (b2 - b1) ≤ 180) := by
  constructor
  · unfold bisector
    exact congrArg mod360 (add_comm _ _)
  · have hdiff_eq : mod360 (b2 - b1 + 360) = mod360 (b2 - b1) :=
      mod360_congr (b2 - b1 + 360) (b2 - b1) 1 (by push_cast; ring)
    set diff := mod360 (b2 - b1) with hdiffdef
    have hdiff0 : 0 ≤ diff := mod360_nonneg _
    have hdiff360 : diff < 360 := mod360_lt _
    obtain ⟨K, hK⟩ := exists_int_mod360 (b2 - b1)
    -- b2 - b1 = diff + 360 * K
    have hm : bisector b1 b2 = mod360 (b1 + diff / 2) := by
      unfold bisector
      rw [hdiff_eq]
    obtain ⟨L, hL⟩ := exists_int_mod360 (b1 + diff / 2)
    set m := mod360 (b1 + diff / 2) with hmdef
    -- b1 + diff / 2 = m + 360 * L
    have hhalf : mod360 (diff / 2) = diff / 2 :=
      mod360_eq_self (by linarith) (by linarith)
    have hneghalf : mod360 (-(diff / 2)) = mod360 (360 - diff / 2) :=
      mod360_congr _ _ (-1) (by push_cast; ring)
    -- the two directed gaps between b1 and m
    have hm_sub_b1 : mod360 (m - b1) = diff / 2 := by
      have h := mod360_congr (m - b1) (diff / 2) (-L) (by push_cast; linarith [hL])
      rw [h, hhalf]
    have hb1_sub_m : mod360 (b1 - m) = mod360 (-(diff / 2)) :=
      mod360_congr (b1 - m) (-(diff / 2)) L (by linarith [hL])
    -- the two directed gaps between m and b2
    have hb2_sub_m : mod360 (b2 - m) = diff / 2 := by
      have h := mod360_congr (b2 - m) (diff / 2) (K + L)
        (by push_cast; linarith [hK, hL])
      rw [h, hhalf]
    have hm_sub_b2 : mod360 (m - b2) = mod360 (-(diff / 2)) :=
      mod360_congr (m - b2) (-(diff / 2)) (-(K + L))
        (by push_cast; linarith [hK, hL])
    -- the two directed gaps between b1 and b2
    have hb2_sub_b1 : mod360 (b2 - b1) = diff := rfl
    have hb1_sub_b2 : mod360 (b1 - b2) = mod360 (-diff) :=
      mod360_congr (b1 - b2) (-diff) (-K) (by push_cast; linarith [hK])
    have hA : diff / 2 ≤ mod360 (-(diff / 2)) := by
      by_cases hzero : diff = 0
      · have h0 : -(diff / 2) = 0 := by rw [hzero]; norm_num
        rw [h0, mod360_eq_self le_rfl (by norm_num)]
        linarith
      · have hpos : 0 < diff := lt_of_le_of_ne hdiff0 (Ne.symm hzero)
        rw [hneghalf, mod360_eq_self (by linarith) (by linarith)]
        linarith
    have hcd1m : circular_distance b1 m = diff / 2 := by
      unfold circular_distance
      rw [hb1_sub_m, hm_sub_b1]
      exact min_eq_right hA
    have hcdm2 : circular_distance m b2 = diff / 2 := by
      unfold circular_distance
      rw [hm_sub_b2, hb2_sub_m]
      exact min_eq_right hA
    constructor
    · -- only if: a midpoint forces the clockwise sweep to be at most 180
      intro hmid
      by_contra hdneg
      push_neg at hdneg
      -- 180 < diff, so the shorter arc between b1 and b2 has length 360 - diff
      have hpos : 0 < diff := by linarith
      have hmod_negdiff : mod360 (-diff) = 360 - diff := by
        have hrw : mod360 (-diff) = mod360 (360 - diff) :=
          mod360_congr _ _ (-1) (by push_cast; ring)
        rw [hrw, mod360_eq_self (by linarith) (by linarith)]
      have hcd12 : circular_distance b1 b2 = 360 - diff := by
        unfold circular_distance
        rw [hb1_sub_b2, hb2_sub_b1, hmod_negdiff]
        exact min_eq_left (by linarith)
      rw [hm] at hmid
      have hc1 := hmid.1
      rw [hcd1m, hcd12] at hc1
      -- diff / 2 = (360 - diff) / 2 forces diff = 180
      linarith
    · -- if: a clockwise sweep of at most 180 makes the bisector the midpoint
      intro hd
      have hB : diff ≤ mod360 (-diff) := by
        by_cases hzero : diff = 0
        · have h0 : -diff = 0 := by rw [hzero]; norm_num
          rw [h0, mod360_eq_self le_rfl (by norm_num), hzero]
        · have hpos : 0 < diff := lt_of_le_of_ne hdiff0 (Ne.symm hzero)
          have hrw : mod360 (-diff) = mod360 (360 - diff) :=
            mod360_congr _ _ (-1) (by push_cast; ring)
          rw [hrw, mod360_eq_self (by linarith) (by linarith)]
          linarith
      have hcd12 : circular_distance b1 b2 = diff := by
        unfold circular_distance
        rw [hb1_sub_b2, hb2_sub_b1]
        exact min_eq_right hB
      rw [hm]
      exact ⟨by rw [hcd1m, hcd12], by rw [hcdm2, hcd12]⟩

/-- Witness for C6 (amended) at `b1 = 0`, `b2 = 90`: the bisector is the
shorter-arc midpoint there. -/
theorem c6_witness : is_shorter_arc_midpoint (bisector 0 90) 0 90 :=
  (c6_amended 0 90 (by norm_num) (by norm_num) (by norm_num) (by norm_num)).2.mpr
    (by rw [show (90:ℝ) - 0 = 90 by norm_num,
          mod360_eq_self (by norm_num : (0:ℝ) ≤ 90) (by norm_num)]
        norm_num)

/-! ## C3 — bounds on solved boost-zone entry/exit distances -/

/-- **C3.** Whenever `find_boost_zone_entry_exit` returns an entry/exit pair,
the distances satisfy `0 ≤ entry`, `exit ≤ length` and `exit − entry ≥ 10`
(with both distances inside the corridor's `[0, length]` box); when the
nonlinear solver fails to converge or raises, the function returns no result
rather than an out-of-bounds pair.  The external SLSQP call is modelled by
`solve` together with its success contract `SolverMeetsConstraints`. -/
theorem c3_boost_entry_exit_bounds (solve : Option (ℝ × ℝ))
    (boost_length boost_start_lat boost_start_lon boost_bearing : ℝ)
    (hsolve : SolverMeetsConstraints boost_length solve) :
    (solve = none →
      find_boost_zone_entry_exit solve boost_start_lat boost_start_lon boost_bearing =
        none) ∧
    ∀ entry_point exit_point,
      find_boost_zone_entry_exit solve boost_start_lat boost_start_lon boost_bearing =
        some (entry_point, exit_point) →
      0 ≤ entry_point.distance_along_boost ∧
      entry_point.distance_along_boost ≤ boost_length ∧
      0 ≤ exit_point.distance_along_boost ∧
      exit_point.distance_along_boost ≤ boost_length ∧
      10 ≤ exit_point.distance_along_boost - entry_point.distance_along_boost := by
  constructor
  · intro h
    rw [h]
    rfl
  · intro entry_point exit_point heq
    match hs : solve with
    | none => exact absurd heq (by simp [find_boost_zone_entry_exit])
    | some (entry_dist, exit_dist) =>
      have hc := hsolve (entry_dist, exit_dist) rfl
      simp only [constraint_order, constraint_entry_positive, constraint_exit_max,
        slsqp_in_bounds] at hc
      simp only [find_boost_zone_entry_exit, Option.some.injEq, Prod.mk.injEq] at heq
      obtain ⟨h1, h2⟩ := heq
      rw [← h1, ← h2]
      refine ⟨?_, ?_, ?_, ?_, ?_⟩ <;> simp <;> linarith [hc.1, hc.2.1, hc.2.2.1,
        hc.2.2.2.1, hc.2.2.2.2.1, hc.2.2.2.2.2.1, hc.2.2.2.2.2.2]

/-- Witness for C3 with a concrete solver outcome `(entry, exit) = (0, 10)`
on a 400 km corridor. -/
theorem c3_witness :
    SolverMeetsConstraints 400 (some (0, 10)) ∧
    (0 ≤ (0 : ℝ) ∧ (0 : ℝ) ≤ 400 ∧ 0 ≤ (10 : ℝ) ∧ (10 : ℝ) ≤ 400 ∧
      10 ≤ (10 : ℝ) - 0) := by
  have hmeets : SolverMeetsConstraints 400 (some (0, 10)) := by
    intro p hp
    have hp2 : p = ((0 : ℝ), (10 : ℝ)) := by
      injection hp with h
      exact h.symm
    subst hp2
    norm_num [constraint_order, constraint_entry_positive, constraint_exit_max,
      slsqp_in_bounds]
  refine ⟨hmeets, ?_⟩
  have h := (c3_boost_entry_exit_bounds (some (0, 10)) 400 0 0 45 hmeets).2
    ⟨(destination_point 0 0 45 0).1, (destination_point 0 0 45 0).2, 0⟩
    ⟨(destination_point 0 0 45 10).1, (destination_point 0 0 45 10).2, 10⟩ rfl
  simpa using h

/-! ## C1 — corridor geometry from a compatible pair -/

def c1_flight1 : RawFlightData :=
  { flight_id := 1, departure_airport := "AAA", arrival_airport := "BBB",
    scheduled_departure := 0, scheduled_arrival := 3600,
    dep_lat := 0, dep_lon := 0, arr_lat := 10, arr_lon := 10 }

def c1_flight2 : RawFlightData :=
  { flight_id := 2, departure_airport := "CCC", arrival_airport := "DDD",
    scheduled_departure := 0, scheduled_arrival := 3600,
    dep_lat := 10, dep_lon := 0, arr_lat := 0, arr_lon := 10 }

/-- A concrete intersecting pair whose chords cross at `(lat, lon) = (10, 20)`
(the intersection point recorded on the pair is what corridor construction
consumes). -/
def c1_pair : FlightPair :=
  { ptype := .intersecting, flight1 := c1_flight1, flight2 := c1_flight2,
    angle := 5, intersection := some (10, 20) }

def c1_flight3 : RawFlightData :=
  { flight_id := 3, departure_airport := "AAA", arrival_airport := "EEE",
    scheduled_departure := 0, scheduled_arrival := 3600,
    dep_lat := 1, dep_lon := 2, arr_lat := 20, arr_lon := 10 }

def c1_flight4 : RawFlightData :=
  { flight_id := 4, departure_airport := "AAA", arrival_airport := "FFF",
    scheduled_departure := 0, scheduled_arrival := 3600,
    dep_lat := 1, dep_lon := 2, arr_lat := 25, arr_lon := 15 }

/-- A concrete similar pair sharing the departure airport. -/
def c1_spair : FlightPair :=
  { ptype := .similar, flight1 := c1_flight3, flight2 := c1_flight4,
    angle := 5, intersection := none }

/-- **C1.** Evaluation of corridor construction.  For an intersecting pair the
corridor's start point is the intersection itself with `length_km = 400`, so
the admissible along-corridor offsets measured from the intersection form
`[0, 400]`: offset `300` is admissible although a corridor "centered at the
intersection, 200 km each side" (the spec's and the source comment's reading)
would reject it, and offset `−100` is rejected although the centered corridor
would admit it.  For a similar pair the code does start at the shared airport
with `length = 0.8 × min(route distances)`, as the claim states. -/
theorem c1_corridor_geometry (bp : BoostPath) (hbp : bp = create_boost_path_from_pair c1_pair) :
    (bp.start_lat = 10 ∧ bp.start_lon = 20 ∧ bp.length_km = 400) ∧
    (boost_offset_admissible bp.length_km 300 ∧ ¬ spec_centered_offset_admissible 300) ∧
    (spec_centered_offset_admissible (-100) ∧
      ¬ boost_offset_admissible bp.length_km (-100)) ∧
    ((create_boost_path_from_pair c1_spair).start_lat = c1_flight3.dep_lat ∧
     (create_boost_path_from_pair c1_spair).start_lon = c1_flight3.dep_lon ∧
     (create_boost_path_from_pair c1_spair).length_km =
       min (haversine_distance c1_flight3.dep_lat c1_flight3.dep_lon
              c1_flight3.arr_lat c1_flight3.arr_lon)
           (haversine_distance c1_flight4.dep_lat c1_flight4.dep_lon
              c1_flight4.arr_lat c1_flight4.arr_lon) * 0.8) := by
  have hfields : bp.start_lat = 10 ∧ bp.start_lon = 20 ∧ bp.length_km = 400 := by
    rw [hbp]
    simp [create_boost_path_from_pair, c1_pair]
  refine ⟨hfields, ⟨?_, ?_⟩, ⟨?_, ?_⟩, ?_⟩
  · rw [boost_offset_admissible, hfields.2.2]
    norm_num
  · rw [spec_centered_offset_admissible]
    norm_num
  · rw [spec_centered_offset_admissible]
    norm_num
  · rw [boost_offset_admissible, hfields.2.2]
    norm_num
  · refine ⟨?_, ?_, ?_⟩ <;>
      simp [create_boost_path_from_pair, c1_spair, c1_flight3, c1_flight4]

/-- Closed-form instance of C1's evaluation (discharges the equation
hypothesis at the corridor the code builds). -/
theorem c1_witness :
    (create_boost_path_from_pair c1_pair).start_lat = 10 ∧
    (create_boost_path_from_pair c1_pair).start_lon = 20 ∧
    (create_boost_path_from_pair c1_pair).length_km = 400 :=
  (c1_corridor_geometry (create_boost_path_from_pair c1_pair) rfl).1

/-! ## C4 — the interception-point search -/

theorem withIndexFrom_mem_iff {α : Type} :
    ∀ (l : List α) (k i : ℕ) (x : α),
      (i, x) ∈ withIndexFrom k l ↔ k ≤ i ∧ l[i - k]? = some x := by
  intro l
  induction l with
  | nil => intro k i x; simp [withIndexFrom]
  | cons a t ih =>
    intro k i x
    simp only [withIndexFrom, List.mem_cons, Prod.mk.injEq, ih]
    constructor
    · rintro (⟨rfl, rfl⟩ | ⟨hk, hget⟩)
      · simp
      · refine ⟨by omega, ?_⟩
        rw [show i - k = (i - (k + 1)) + 1 by omega, List.getElem?_cons_succ]
        exact hget
    · rintro ⟨hk, hget⟩
      by_cases hik : i = k
      · subst hik
        rw [Nat.sub_self, List.getElem?_cons_zero, Option.some.injEq] at hget
        exact Or.inl ⟨rfl, hget.symm⟩
      · right
        refine ⟨by omega, ?_⟩
        rw [show i - k = (i - (k + 1)) + 1 by omega, List.getElem?_cons_succ] at hget
        exact hget

/-- Invariant of the best-so-far scan: a returned node is admissible, its
stored score is its own score, it came from the scanned list or from the
incoming accumulator, and its score is minimal among all admissible scanned
nodes and no worse than the incoming accumulator's. -/
theorem fip_go_spec (adm : TrajectoryNode → Prop) (score : TrajectoryNode → ℝ) :
    ∀ (l : List (ℕ × TrajectoryNode)) (best : Option (TrajectoryNode × ℕ × ℝ)),
      (∀ bn bi bs, best = some (bn, bi, bs) → bs = score bn ∧ adm bn) →
      ∀ n i s, fip_go adm score l best = some (n, i, s) →
        (s = score n ∧ adm n ∧ ((i, n) ∈ l ∨ best = some (n, i, s))) ∧
        (∀ j m, (j, m) ∈ l → adm m → s ≤ score m) ∧
        (∀ bn bi bs, best = some (bn, bi, bs) → s ≤ bs) := by
  intro l
  induction l with
  | nil =>
    intro best hbest n i s hres
    simp only [fip_go] at hres
    have hb := hbest n i s hres
    refine ⟨⟨hb.1, hb.2, Or.inr hres⟩, by simp, ?_⟩
    intro bn bi bs hbs
    rw [hres] at hbs
    injection hbs with hh
    injection hh with h1 h2
    injection h2 with h3 h4
    exact h4.le
  | cons p rest ih =>
    intro best hbest n i s hres
    obtain ⟨j₀, m₀⟩ := p
    by_cases hadm : adm m₀
    · simp only [fip_go, if_pos hadm] at hres
      cases best with
      | none =>
        have hres2 : fip_go adm score rest (some (m₀, j₀, score m₀)) = some (n, i, s) :=
          hres
        have hbest2 : ∀ bn bi bs, (some (m₀, j₀, score m₀) :
            Option (TrajectoryNode × ℕ × ℝ)) = some (bn, bi, bs) →
            bs = score bn ∧ adm bn := by
          intro bn bi bs hh
          injection hh with hh
          injection hh with h1 h2
          injection h2 with h3 h4
          subst h1; subst h4
          exact ⟨rfl, hadm⟩
        obtain ⟨⟨hs, hadmn, hmem⟩, hmin, hacc⟩ := ih _ hbest2 n i s hres2
        refine ⟨⟨hs, hadmn, Or.inl ?_⟩, ?_, by simp⟩
        · rcases hmem with h | h
          · exact List.mem_cons_of_mem _ h
          · injection h with hh
            injection hh with h1 h2
            injection h2 with h3 h4
            subst h1; subst h3
            exact List.mem_cons_self _ _
        · intro j m hm hadmm
          rcases List.mem_cons.mp hm with h | h
          · injection h with h1 h2
            rw [h2]
            exact hacc m₀ j₀ (score m₀) rfl
          · exact hmin j m h hadmm
      | some b =>
        obtain ⟨bn₀, bi₀, bs₀⟩ := b
        have hb0 := hbest bn₀ bi₀ bs₀ rfl
        have hres2 : (if score m₀ < bs₀ then
            fip_go adm score rest (some (m₀, j₀, score m₀))
          else fip_go adm score rest (some (bn₀, bi₀, bs₀))) = some (n, i, s) := hres
        by_cases himp : score m₀ < bs₀
        · rw [if_pos himp] at hres2
          have hbest2 : ∀ bn bi bs, (some (m₀, j₀, score m₀) :
              Option (TrajectoryNode × ℕ × ℝ)) = some (bn, bi, bs) →
              bs = score bn ∧ adm bn := by
            intro bn bi bs hh
            injection hh with hh
            injection hh with h1 h2
            injection h2 with h3 h4
            subst h1; subst h4
            exact ⟨rfl, hadm⟩
          obtain ⟨⟨hs, hadmn, hmem⟩, hmin, hacc⟩ := ih _ hbest2 n i s hres2
          refine ⟨⟨hs, hadmn, Or.inl ?_⟩, ?_, ?_⟩
          · rcases hmem with h | h
            · exact List.mem_cons_of_mem _ h
            · injection h with hh
              injection hh with h1 h2
              injection h2 with h3 h4
              subst h1; subst h3
              exact List.mem_cons_self _ _
          · intro j m hm hadmm
            rcases List.mem_cons.mp hm with h | h
            · injection h with h1 h2
              rw [h2]
              exact hacc m₀ j₀ (score m₀) rfl
            · exact hmin j m h hadmm
          · intro bn bi bs hbs
            injection hbs with hh
            injection hh with h1 h2
            injection h2 with h3 h4
            subst h4
            have := hacc m₀ j₀ (score m₀) rfl
            linarith
        · rw [if_neg himp] at hres2
          have hbest2 : ∀ bn bi bs, (some (bn₀, bi₀, bs₀) :
              Option (TrajectoryNode × ℕ × ℝ)) = some (bn, bi, bs) →
              bs = score bn ∧ adm bn := by
            intro bn bi bs hh
            injection hh with hh
            injection hh with h1 h2
            injection h2 with h3 h4
            subst h1; subst h4
            exact hb0
          obtain ⟨⟨hs, hadmn, hmem⟩, hmin, hacc⟩ := ih _ hbest2 n i s hres2
          refine ⟨⟨hs, hadmn, ?_⟩, ?_, ?_⟩
          · rcases hmem with h | h
            · exact Or.inl (List.mem_cons_of_mem _ h)
            · exact Or.inr h
          · intro j m hm hadmm
            rcases List.mem_cons.mp hm with h | h
            · injection h with h1 h2
              rw [h2]
              have := hacc bn₀ bi₀ bs₀ rfl
              linarith
            · exact hmin j m h hadmm
          · intro bn bi bs hbs
            injection hbs with hh
            injection hh with h1 h2
            injection h2 with h3 h4
            subst h4
            exact hacc bn₀ bi₀ bs₀ rfl
    · simp only [fip_go, if_neg hadm] at hres
      obtain ⟨⟨hs, hadmn, hmem⟩, hmin, hacc⟩ := ih best hbest n i s hres
      refine ⟨⟨hs, hadmn, ?_⟩, ?_, hacc⟩
      · rcases hmem with h | h
        · exact Or.inl (List.mem_cons_of_mem _ h)
        · exact Or.inr h
      · intro j m hm hadmm
        rcases List.mem_cons.mp hm with h | h
        · injection h with h1 h2
          rw [h2] at hadmm
          exact absurd hadmm hadm
        · exact hmin j m h hadmm

/-- **C4, amended.** Every interception point returned is a trajectory node at
index ≥ 1 (never the candidate's own origin node), minimizes
`distance + 0.1·|time_to_reach − distance/speed×60|` over the admissible
nodes, and satisfies the reachability bounds — but the distance bound the
scan enforces is `MAX_DETOUR_DISTANCE_KM * 2` (400 km, "allow larger range
for direct path"), not the 200 km max detour distance itself; the time to
reach the node lies in `[0, 240]` minutes as claimed. -/
theorem c4_intercept_point_spec (origin_lat origin_lon departure_time : ℝ)
    (flight_nodes : List TrajectoryNode) (n : TrajectoryNode) (i : ℕ)
    (h : find_intercept_point origin_lat origin_lon flight_nodes departure_time =
      some (n, i)) :
    1 ≤ i ∧ flight_nodes[i]? = some n ∧
    intercept_admissible origin_lat origin_lon departure_time n ∧
    ∀ j m, 1 ≤ j → flight_nodes[j]? = some m →
      intercept_admissible origin_lat origin_lon departure_time m →
      intercept_score origin_lat origin_lon departure_time n ≤
        intercept_score origin_lat origin_lon departure_time m := by
  unfold find_intercept_point at h
  rw [Option.map_eq_some'] at h
  obtain ⟨⟨rn, ri, rs⟩, hgo, hpair⟩ := h
  injection hpair with hn hi
  subst hn; subst hi
  have hspec := fip_go_spec (intercept_admissible origin_lat origin_lon departure_time)
    (intercept_score origin_lat origin_lon departure_time)
    (withIndexFrom 1 (flight_nodes.drop 1)) none (by simp) rn ri rs hgo
  obtain ⟨⟨hs, hadm, hmem⟩, hmin, _⟩ := hspec
  rcases hmem with hmem | hmem
  · rw [withIndexFrom_mem_iff] at hmem
    obtain ⟨h1i, hget⟩ := hmem
    rw [List.getElem?_drop] at hget
    rw [show 1 + (ri - 1) = ri by omega] at hget
    refine ⟨h1i, hget, hadm, ?_⟩
    intro j m h1j hjget hadmm
    have hjmem : (j, m) ∈ withIndexFrom 1 (flight_nodes.drop 1) := by
      rw [withIndexFrom_mem_iff]
      refine ⟨h1j, ?_⟩
      rw [List.getElem?_drop, show 1 + (j - 1) = j by omega]
      exact hjget
    have hs2 := hmin j m hjmem hadmm
    exact hs ▸ hs2
  · exact absurd hmem (by simp)

theorem atan2_sin_cos {x : ℝ} (h1 : -(Real.pi / 2) < x) (h2 : x < Real.pi / 2) :
    atan2 (Real.sin x) (Real.cos x) = x := by
  have hcos : 0 < Real.cos x := Real.cos_pos_of_mem_Ioo ⟨h1, h2⟩
  rw [atan2, if_pos hcos, ← Real.tan_eq_sin_div_cos, Real.arctan_tan h1 h2]

/-- `haversine_distance` along the equator: for `0 ≤ lon < 180` the distance
from `(0, 0)` to `(0, lon)` is `6371 · lon · π / 180` km. -/
theorem haversine_equator (lon : ℝ) (h0 : 0 ≤ lon) (h1 : lon < 180) :
    haversine_distance 0 0 0 lon = 6371 * (lon * Real.pi / 180) := by
  have hpi := Real.pi_pos
  have hx0 : 0 ≤ lon * Real.pi / 360 := by positivity
  have hxlt : lon * Real.pi / 360 < Real.pi / 2 := by
    rw [div_lt_div_iff₀ (by norm_num) (by norm_num)]
    nlinarith
  simp only [haversine_distance, radiansOf]
  rw [show ((0:ℝ) - 0) * Real.pi / 180 / 2 = 0 by ring]
  rw [show (0:ℝ) * Real.pi / 180 = 0 by ring]
  rw [show (lon - 0) * Real.pi / 180 / 2 = lon * Real.pi / 360 by ring]
  rw [Real.sin_zero, Real.cos_zero]
  have hsin0 : 0 ≤ Real.sin (lon * Real.pi / 360) :=
    Real.sin_nonneg_of_nonneg_of_le_pi hx0 (by linarith)
  have hcos0 : 0 ≤ Real.cos (lon * Real.pi / 360) :=
    Real.cos_nonneg_of_mem_Icc ⟨by linarith, le_of_lt hxlt⟩
  rw [show (0:ℝ) ^ 2 + 1 * 1 * Real.sin (lon * Real.pi / 360) ^ 2 =
    Real.sin (lon * Real.pi / 360) ^ 2 by ring]
  rw [show (1:ℝ) - Real.sin (lon * Real.pi / 360) ^ 2 =
    Real.cos (lon * Real.pi / 360) ^ 2 by
      nlinarith [Real.sin_sq_add_cos_sq (lon * Real.pi / 360)]]
  rw [Real.sqrt_sq hsin0, Real.sqrt_sq hcos0]
  rw [atan2_sin_cos (by linarith) hxlt]
  ring

def c4_node0 : TrajectoryNode := ⟨0, 0, 0⟩

/-- A node on the equator 3° of longitude from the origin — about 333.6 km
away, i.e. beyond the 200 km max detour distance but inside the scan's actual
400 km bound — reachable 30 minutes after departure. -/
def c4_node1 : TrajectoryNode := ⟨0, 3, 1800⟩

theorem c4_concrete_distance :
    MAX_DETOUR_DISTANCE_KM < haversine_distance 0 0 c4_node1.lat c4_node1.lon ∧
    haversine_distance 0 0 c4_node1.lat c4_node1.lon ≤ MAX_DETOUR_DISTANCE_KM * 2 := by
  have hd : haversine_distance 0 0 c4_node1.lat c4_node1.lon =
      6371 * (3 * Real.pi / 180) := by
    show haversine_distance 0 0 0 3 = 6371 * (3 * Real.pi / 180)
    exact haversine_equator 3 (by norm_num) (by norm_num)
  rw [hd, MAX_DETOUR_DISTANCE_KM]
  constructor
  · nlinarith [Real.pi_gt_three]
  · nlinarith [Real.pi_lt_d2]

theorem c4_concrete_admissible : intercept_admissible 0 0 0 c4_node1 := by
  refine ⟨c4_concrete_distance.2, ?_, ?_⟩
  · show 0 ≤ ((1800 : ℝ) - 0) / 60
    norm_num
  · show ((1800 : ℝ) - 0) / 60 ≤ 240
    norm_num

theorem c4_concrete_eval :
    find_intercept_point 0 0 [c4_node0, c4_node1] 0 = some (c4_node1, 1) := by
  unfold find_intercept_point
  rw [show ([c4_node0, c4_node1].drop 1) = [c4_node1] from rfl]
  rw [show withIndexFrom 1 [c4_node1] = [(1, c4_node1)] from rfl]
  rw [show fip_go (intercept_admissible 0 0 0) (intercept_score 0 0 0)
        [(1, c4_node1)] none =
      some (c4_node1, 1, intercept_score 0 0 0 c4_node1) from by
    simp only [fip_go]
    rw [if_pos c4_concrete_admissible]]
  rfl

/-- **C4, counterexample.** The intercept search returns the node 3° east on
the equator — whose distance from our origin exceeds the 200 km max detour
distance — so a returned interception point does *not* satisfy the claimed
`distance ≤ MAX_DETOUR_DISTANCE_KM` bound (the code's bound is twice that). -/
theorem c4_counterexample :
    find_intercept_point 0 0 [c4_node0, c4_node1] 0 = some (c4_node1, 1) ∧
    MAX_DETOUR_DISTANCE_KM < haversine_distance 0 0 c4_node1.lat c4_node1.lon :=
  ⟨c4_concrete_eval, c4_concrete_distance.1⟩

/-- Witness for C4 (amended) at the concrete two-node trajectory. -/
theorem c4_witness :
    1 ≤ 1 ∧ ([c4_node0, c4_node1] : List TrajectoryNode)[1]? = some c4_node1 ∧
    intercept_admissible 0 0 0 c4_node1 ∧
    ∀ j m, 1 ≤ j → ([c4_node0, c4_node1] : List TrajectoryNode)[j]? = some m →
      intercept_admissible 0 0 0 m →
      intercept_score 0 0 0 c4_node1 ≤ intercept_score 0 0 0 m :=
  c4_intercept_point_spec 0 0 0 [c4_node0, c4_node1] c4_node1 1 c4_concrete_eval

/-! ## C2 — savings invariants of the following optimizer -/

/-- The C2 invariant on a `FollowingResult`: positive `savings_percent` only
with `total_cost < solo_cost`; a result that follows no flight has zero
savings; a result that follows a flight has strictly positive
`savings_percent`. -/
def FollowingInvariant (r : FollowingResult) : Prop :=
  (0 < r.savings_percent → r.total_cost < r.solo_cost) ∧
  (r.followed_flight_id = none → r.savings = 0 ∧ r.savings_percent = 0) ∧
  (r.followed_flight_id ≠ none → 0 < r.savings_percent)

/-- The cost fields of any path produced by `calculate_path_with_following`
satisfy their defining relations. -/
theorem calculate_path_fields (origin_lat origin_lon dest_lat dest_lon
    departure_time : ℝ) (flight_nodes : List TrajectoryNode) (pr : PathResult)
    (h : calculate_path_with_following origin_lat origin_lon dest_lat dest_lon
      departure_time flight_nodes = some pr) :
    pr.savings = pr.solo_cost - pr.total_cost ∧
    pr.savings_percent =
      if pr.solo_cost > 0 then pr.savings / pr.solo_cost * 100 else 0 := by
  unfold calculate_path_with_following at h
  split at h
  · exact absurd h (by simp)
  · split at h
    · exact absurd h (by simp)
    · simp only [Option.some.injEq] at h
      subst h
      exact ⟨rfl, rfl⟩

/-- Positive `savings_percent` forces `total_cost < solo_cost`. -/
theorem path_percent_pos (pr : PathResult)
    (hsav : pr.savings = pr.solo_cost - pr.total_cost)
    (hper : pr.savings_percent =
      if pr.solo_cost > 0 then pr.savings / pr.solo_cost * 100 else 0)
    (hp : 0 < pr.savings_percent) : pr.total_cost < pr.solo_cost := by
  by_cases hs : pr.solo_cost > 0
  · rw [hper, if_pos hs] at hp
    have h2 : 0 < pr.savings / pr.solo_cost := by linarith
    rcases div_pos_iff.mp h2 with ⟨h3, _⟩ | ⟨_, h4⟩
    · linarith
    · linarith
  · rw [hper, if_neg hs] at hp
    exact absurd hp (lt_irrefl 0)

/-- Invariant of the candidate-selection loop: a selected path has positive
`savings_percent` and was produced by `calculate_path_with_following`. -/
theorem select_best_candidate_spec (origin_lat origin_lon dest_lat dest_lon
    departure_time : ℝ) :
    ∀ (cands : List Candidate) (best : Option (PathResult × ℕ)),
      (∀ pr fid, best = some (pr, fid) → 0 < pr.savings_percent ∧
        ∃ nodes, calculate_path_with_following origin_lat origin_lon dest_lat dest_lon
          departure_time nodes = some pr) →
      ∀ pr fid, select_best_candidate origin_lat origin_lon dest_lat dest_lon
          departure_time cands best = some (pr, fid) →
        0 < pr.savings_percent ∧
        ∃ nodes, calculate_path_with_following origin_lat origin_lon dest_lat dest_lon
          departure_time nodes = some pr := by
  intro cands
  induction cands with
  | nil =>
    intro best hbest pr fid hres
    simp only [select_best_candidate] at hres
    exact hbest pr fid hres
  | cons c rest ih =>
    intro best hbest pr fid hres
    cases hcp : calculate_path_with_following origin_lat origin_lon dest_lat dest_lon
        departure_time c.flight_nodes with
    | none =>
      simp only [select_best_candidate, hcp] at hres
      exact ih best hbest pr fid hres
    | some path_result =>
      simp only [select_best_candidate, hcp] at hres
      cases best with
      | none =>
        have hres2 : (if path_result.savings_percent > 0 then
            select_best_candidate origin_lat origin_lon dest_lat dest_lon departure_time
              rest (some (path_result, c.flight_id))
          else select_best_candidate origin_lat origin_lon dest_lat dest_lon
            departure_time rest none) = some (pr, fid) := hres
        by_cases hpos : path_result.savings_percent > 0
        · rw [if_pos hpos] at hres2
          refine ih _ ?_ pr fid hres2
          intro pr' fid' h'
          injection h' with h'
          injection h' with h1 h2
          rw [← h1]
          exact ⟨hpos, c.flight_nodes, hcp⟩
        · rw [if_neg hpos] at hres2
          exact ih _ (by simp) pr fid hres2
      | some b =>
        obtain ⟨best_path, best_fid⟩ := b
        have hres2 : (if path_result.savings_percent > 0 ∧
              path_result.total_cost < best_path.total_cost then
            select_best_candidate origin_lat origin_lon dest_lat dest_lon departure_time
              rest (some (path_result, c.flight_id))
          else select_best_candidate origin_lat origin_lon dest_lat dest_lon
            departure_time rest (some (best_path, best_fid))) = some (pr, fid) := hres
        by_cases hcond : path_result.savings_percent > 0 ∧
            path_result.total_cost < best_path.total_cost
        · rw [if_pos hcond] at hres2
          refine ih _ ?_ pr fid hres2
          intro pr' fid' h'
          injection h' with h'
          injection h' with h1 h2
          rw [← h1]
          exact ⟨hcond.1, c.flight_nodes, hcp⟩
        · rw [if_neg hcond] at hres2
          refine ih _ ?_ pr fid hres2
          intro pr' fid' h'
          injection h' with h'
          injection h' with h1 h2
          rw [← h1]
          exact hbest best_path best_fid rfl

/-- Every result of `evaluate_departure_time_with_following` satisfies the C2
invariant. -/
theorem evaluate_invariant (candidates : List Candidate)
    (origin_lat origin_lon dest_lat dest_lon departure_time : ℝ) :
    FollowingInvariant (evaluate_departure_time_with_following candidates
      origin_lat origin_lon dest_lat dest_lon departure_time) := by
  unfold evaluate_departure_time_with_following
  cases hsel : select_best_candidate origin_lat origin_lon dest_lat dest_lon
      departure_time candidates none with
  | none =>
    refine ⟨?_, ?_, ?_⟩ <;> simp [direct_result, FollowingInvariant]
  | some b =>
    obtain ⟨best_path, best_fid⟩ := b
    obtain ⟨hpos, nodes, hcp⟩ := select_best_candidate_spec origin_lat origin_lon
      dest_lat dest_lon departure_time candidates none (by simp) best_path best_fid hsel
    obtain ⟨hsav, hper⟩ := calculate_path_fields origin_lat origin_lon dest_lat dest_lon
      departure_time nodes best_path hcp
    have htl : best_path.total_cost < best_path.solo_cost :=
      path_percent_pos best_path hsav hper hpos
    exact ⟨fun _ => htl, fun hnone => absurd hnone (by simp), fun _ => hpos⟩

/-- A best evaluation picked by the offset loop comes from the evaluated list
(or from the incoming accumulator). -/
theorem pick_best_evaluation_mem :
    ∀ (l : List (ℝ × FollowingResult)) (best : Option (ℝ × FollowingResult)) (t : ℝ)
      (r : FollowingResult),
      pick_best_evaluation l best = some (t, r) → (t, r) ∈ l ∨ best = some (t, r) := by
  intro l
  induction l with
  | nil =>
    intro best t r hres
    simp only [pick_best_evaluation] at hres
    exact Or.inr hres
  | cons p rest ih =>
    intro best t r hres
    obtain ⟨t0, r0⟩ := p
    cases best with
    | none =>
      by_cases h0 : r0.savings_percent > 0
      · simp only [pick_best_evaluation, if_pos h0] at hres
        rcases ih _ t r hres with h | h
        · exact Or.inl (List.mem_cons_of_mem _ h)
        · injection h with h
          injection h with h1 h2
          rw [← h1, ← h2]
          exact Or.inl (List.mem_cons_self _ _)
      · simp only [pick_best_evaluation, if_neg h0] at hres
        rcases ih _ t r hres with h | h
        · exact Or.inl (List.mem_cons_of_mem _ h)
        · exact absurd h (by simp)
    | some b =>
      obtain ⟨bt, br⟩ := b
      by_cases hcond : r0.savings_percent > 0 ∧ r0.total_cost < br.total_cost
      · simp only [pick_best_evaluation, if_pos hcond] at hres
        rcases ih _ t r hres with h | h
        · exact Or.inl (List.mem_cons_of_mem _ h)
        · injection h with h
          injection h with h1 h2
          rw [← h1, ← h2]
          exact Or.inl (List.mem_cons_self _ _)
      · simp only [pick_best_evaluation, if_neg hcond] at hres
        rcases ih _ t r hres with h | h
        · exact Or.inl (List.mem_cons_of_mem _ h)
        · exact Or.inr h

/-- **C2.** Every `FollowingResult` produced by the flight-following optimizer
— both a single departure-time evaluation and the final result of the
offset search — reports a positive `savings_percent` only when
`total_cost < solo_cost`; a result with no followed flight has `savings = 0`
and `savings_percent = 0`; and a result with a followed flight has
`savings_percent > 0`. -/
theorem c2_following_result_invariant (candidates : List Candidate)
    (candidatesAt : ℝ → List Candidate)
    (origin_lat origin_lon dest_lat dest_lon departure_time scheduled_departure : ℝ) :
    FollowingInvariant (evaluate_departure_time_with_following candidates
      origin_lat origin_lon dest_lat dest_lon departure_time) ∧
    FollowingInvariant ((find_optimal_departure_time candidatesAt
      origin_lat origin_lon dest_lat dest_lon scheduled_departure).2) := by
  refine ⟨evaluate_invariant candidates origin_lat origin_lon dest_lat dest_lon
    departure_time, ?_⟩
  simp only [find_optimal_departure_time]
  cases hpb : pick_best_evaluation (DEPARTURE_TIME_OFFSETS.map fun offset =>
      (scheduled_departure + offset * 60,
       evaluate_departure_time_with_following
         (candidatesAt (scheduled_departure + offset * 60))
         origin_lat origin_lon dest_lat dest_lon
         (scheduled_departure + offset * 60))) none with
  | none =>
    exact evaluate_invariant _ origin_lat origin_lon dest_lat dest_lon
      scheduled_departure
  | some b =>
    obtain ⟨best_time, best_result⟩ := b
    show FollowingInvariant ((if best_result.savings_percent > 0 then
        (best_time, best_result)
      else (scheduled_departure,
        evaluate_departure_time_with_following (candidatesAt scheduled_departure)
          origin_lat origin_lon dest_lat dest_lon scheduled_departure)) :
      ℝ × FollowingResult).2
    by_cases hp : best_result.savings_percent > 0
    · rw [if_pos hp]
      rcases pick_best_evaluation_mem _ _ _ _ hpb with hmem | hmem
      · rw [List.mem_map] at hmem
        obtain ⟨offset, _, heq⟩ := hmem
        injection heq with h1 h2
        rw [← h2]
        exact evaluate_invariant _ _ _ _ _ _
      · exact absurd hmem (by simp)
    · rw [if_neg hp]
      exact evaluate_invariant _ origin_lat origin_lon dest_lat dest_lon
        scheduled_departure

/-- Witness for C2: with no candidate flights, the evaluation follows no
flight and reports zero savings. -/
theorem c2_witness :
    (evaluate_departure_time_with_following [] 0 0 0 0 0).followed_flight_id = none ∧
    (evaluate_departure_time_with_following [] 0 0 0 0 0).savings = 0 ∧
    (evaluate_departure_time_with_following [] 0 0 0 0 0).savings_percent = 0 := by
  have hnone : (evaluate_departure_time_with_following [] 0 0 0 0 0).followed_flight_id =
      none := rfl
  have h := ((c2_following_result_invariant [] (fun _ => []) 0 0 0 0 0 0).1).2.1 hnone
  exact ⟨hnone, h⟩

/-! ## Shared machinery for the pair finders (C5, C8) -/

/-- Membership in the `i<j` pair enumeration: exactly the ordered two-element
sublists satisfying the predicate. -/
theorem pairScan_mem {α β : Type} (P : α → α → Prop) (mk : α → α → β) :
    ∀ (fs : List α) (b : β),
      b ∈ pairScan P mk fs ↔ ∃ x y, List.Sublist [x, y] fs ∧ P x y ∧ b = mk x y := by
  intro fs
  induction fs with
  | nil =>
    intro b
    simp only [pairScan, List.not_mem_nil, false_iff]
    rintro ⟨x, y, hsub, -, -⟩
    simp at hsub
  | cons a rest ih =>
    intro b
    simp only [pairScan, List.mem_append, List.mem_map, List.mem_filter, ih]
    constructor
    · rintro (⟨y, ⟨hy, hP⟩, rfl⟩ | ⟨x, y, hsub, hP, rfl⟩)
      · exact ⟨a, y, List.Sublist.cons₂ a (List.singleton_sublist.mpr hy),
          of_decide_eq_true hP, rfl⟩
      · exact ⟨x, y, List.Sublist.cons _ hsub, hP, rfl⟩
    · rintro ⟨x, y, hsub, hP, rfl⟩
      cases hsub with
      | cons _ h => exact Or.inr ⟨x, y, h, hP, rfl⟩
      | cons₂ _ h =>
        exact Or.inl ⟨y, ⟨List.singleton_sublist.mp h, decide_eq_true hP⟩, rfl⟩

/-- The two elements at positions `i < j` form an ordered sublist. -/
theorem get_pair_sublist {α : Type} :
    ∀ (fs : List α) (i j : ℕ) (hij : i < j) (hj : j < fs.length),
      List.Sublist [fs.get ⟨i, hij.trans hj⟩, fs.get ⟨j, hj⟩] fs := by
  intro fs
  induction fs with
  | nil => intro i j hij hj; simp at hj
  | cons a rest ih =>
    intro i j hij hj
    rcases j with _ | j'
    · omega
    rcases i with _ | i'
    · have hj' : j' < rest.length := by
        simpa using hj
      show List.Sublist [a, rest.get ⟨j', hj'⟩] (a :: rest)
      exact List.Sublist.cons₂ a (List.singleton_sublist.mpr (rest.get_mem _ _))
    · have hij' : i' < j' := by omega
      have hj' : j' < rest.length := by simpa using hj
      show List.Sublist [rest.get ⟨i', hij'.trans hj'⟩, rest.get ⟨j', hj'⟩] (a :: rest)
      exact List.Sublist.cons a (ih i' j' hij' hj')

/-- A list permutation-equal to a pair is one of its two arrangements. -/
theorem perm_pair {α : Type} {w : List α} {x y : α} (h : w.Perm [x, y]) :
    w = [x, y] ∨ w = [y, x] := by
  have hlen : w.length = 2 := by simpa using h.length_eq
  rcases w with _ | ⟨a, w'⟩
  · simp at hlen
  rcases w' with _ | ⟨b, w''⟩
  · simp at hlen
  rcases w'' with _ | ⟨c, w'''⟩
  · have ha : a ∈ ([x, y] : List α) := h.subset (by simp)
    rcases List.mem_pair.mp ha with rfl | rfl
    · have hb : [b].Perm [y] := h.cons_inv
      have : b ∈ ([y] : List α) := hb.subset (by simp)
      simp at this
      subst this
      exact Or.inl rfl
    · have h2 : ([a, b] : List α).Perm [a, x] := h.trans (List.Perm.swap a x [])
      have hb : [b].Perm [x] := h2.cons_inv
      have : b ∈ ([x] : List α) := hb.subset (by simp)
      simp at this
      subst this
      exact Or.inr rfl
  · simp [List.length_cons] at hlen

/-- In a duplicate-free list, `[a, b]` and `[b, a]` cannot both be sublists
unless `a = b`. -/
theorem sublist_pair_antisym {α : Type} :
    ∀ (l : List α), l.Nodup → ∀ x y : α,
      List.Sublist [x, y] l → List.Sublist [y, x] l → x = y := by
  intro l
  induction l with
  | nil =>
    intro _ x y h1 _
    simp at h1
  | cons a rest ih =>
    intro hnd x y h1 h2
    cases h1 with
    | cons _ h1' =>
      cases h2 with
      | cons _ h2' => exact ih (List.Nodup.of_cons hnd) x y h1' h2'
      | cons₂ _ h2' =>
        have hy : a ∈ rest := h1'.subset (by simp)
        exact absurd hy (List.nodup_cons.mp hnd).1
    | cons₂ _ h1' =>
      cases h2 with
      | cons _ h2' =>
        have hy : a ∈ rest := h2'.subset (by simp)
        exact absurd hy (List.nodup_cons.mp hnd).1
      | cons₂ _ h2' => rfl

/-- For a symmetric predicate, the unordered pairs emitted by the enumeration
are invariant under permutation of the input list. -/
theorem pairScan_mem_unordered {α β : Type} (P : α → α → Prop) (mk : α → α → β)
    (ids : β → Finset ℕ)
    (hPsymm : ∀ x y, P x y → P y x)
    (hids : ∀ x y, ids (mk x y) = ids (mk y x))
    (fs fs' : List α) (hperm : fs.Perm fs') (s : Finset ℕ) :
    (∃ p ∈ pairScan P mk fs, ids p = s) ↔ (∃ p ∈ pairScan P mk fs', ids p = s) := by
  have key : ∀ (l : List α), (∃ p ∈ pairScan P mk l, ids p = s) ↔
      (∃ x y, List.Subperm [x, y] l ∧ P x y ∧ ids (mk x y) = s) := by
    intro l
    constructor
    · rintro ⟨p, hp, hids_eq⟩
      rw [pairScan_mem] at hp
      obtain ⟨x, y, hsub, hP, rfl⟩ := hp
      exact ⟨x, y, hsub.subperm, hP, hids_eq⟩
    · rintro ⟨x, y, hsp, hP, hids_eq⟩
      obtain ⟨w, hwperm, hwsub⟩ := hsp
      rcases perm_pair hwperm with rfl | rfl
      · exact ⟨mk x y, (pairScan_mem P mk l _).mpr ⟨x, y, hwsub, hP, rfl⟩, hids_eq⟩
      · exact ⟨mk y x, (pairScan_mem P mk l _).mpr ⟨y, x, hwsub, hPsymm x y hP, rfl⟩,
          (hids x y).symm.trans hids_eq⟩
  rw [key fs, key fs']
  constructor <;> rintro ⟨x, y, hsp, hrest⟩
  · exact ⟨x, y, (hperm.subperm_left).mp hsp, hrest⟩
  · exact ⟨x, y, (hperm.subperm_left).mpr hsp, hrest⟩

/-- The course angle is symmetric in the two flights: the dot product and the
product of the magnitudes are unchanged by swapping the arguments. -/
theorem calculate_angle_comm (a1 b1 c1 d1 a2 b2 c2 d2 : ℝ) :
    calculate_angle_between_paths a1 b1 c1 d1 a2 b2 c2 d2 =
    calculate_angle_between_paths a2 b2 c2 d2 a1 b1 c1 d1 := by
  simp only [calculate_angle_between_paths]
  rw [show (c2 - a2) * (c1 - a1) + (d2 - b2) * (d1 - b1) =
    (c1 - a1) * (c2 - a2) + (d1 - b1) * (d2 - b2) by ring]
  set D : ℝ := (c1 - a1) * (c2 - a2) + (d1 - b1) * (d2 - b2) with hD
  set M1 : ℝ := Real.sqrt ((c1 - a1) ^ 2 + (d1 - b1) ^ 2) with hM1
  set M2 : ℝ := Real.sqrt ((c2 - a2) ^ 2 + (d2 - b2) ^ 2) with hM2
  by_cases h1 : M1 = 0 ∨ M2 = 0
  · rw [if_pos h1, if_pos (Or.symm h1)]
  · rw [if_neg h1, if_neg fun h => h1 (Or.symm h)]
    by_cases h2 : D < 0
    · rw [if_pos h2, if_pos h2]
    · rw [if_neg h2, if_neg h2, mul_comm M2 M1]

theorem flight_angle_comm (f g : RawFlightData) : flight_angle f g = flight_angle g f :=
  calculate_angle_comm f.dep_lat f.dep_lon f.arr_lat f.arr_lon
    g.dep_lat g.dep_lon g.arr_lat g.arr_lon

theorem within_three_hours_symm (t1 t2 : ℝ) :
    within_three_hours t1 t2 ↔ within_three_hours t2 t1 := by
  unfold within_three_hours
  rw [abs_sub_comm]

theorem within_hours_symm (t1 t2 h : ℝ) : within_hours t1 t2 h ↔ within_hours t2 t1 h := by
  unfold within_hours
  rw [abs_sub_comm]

/-- Swapping the two chords negates the denominator and exchanges the two
interpolation parameters of the planar intersection. -/
theorem find_line_intersection_swap (p1_lat p1_lon p2_lat p2_lon p3_lat p3_lon
    p4_lat p4_lon : ℝ) (r : SegIntersection)
    (h : find_line_intersection p3_lat p3_lon p4_lat p4_lon p1_lat p1_lon p2_lat p2_lon =
      some r) :
    ∃ q, find_line_intersection p1_lat p1_lon p2_lat p2_lon p3_lat p3_lon p4_lat p4_lon =
      some q ∧ r.t1 = q.t2 ∧ r.t2 = q.t1 := by
  simp only [find_line_intersection] at h ⊢
  set denom : ℝ := (p1_lon - p2_lon) * (p3_lat - p4_lat) -
    (p1_lat - p2_lat) * (p3_lon - p4_lon) with hdenom
  set denom' : ℝ := (p3_lon - p4_lon) * (p1_lat - p2_lat) -
    (p3_lat - p4_lat) * (p1_lon - p2_lon) with hdenom'
  have hdd : denom' = -denom := by rw [hdenom, hdenom']; ring
  rw [hdd, abs_neg] at h
  by_cases hpar : |denom| < 1 / 10 ^ 10
  · rw [if_pos hpar] at h
    exact absurd h (by simp)
  · have hne : denom ≠ 0 := by
      intro h0
      apply hpar
      rw [h0]
      norm_num
    rw [if_neg hpar] at h ⊢
    set t : ℝ := ((p1_lon - p3_lon) * (p3_lat - p4_lat) -
      (p1_lat - p3_lat) * (p3_lon - p4_lon)) / denom with ht
    set u : ℝ := -((p1_lon - p2_lon) * (p1_lat - p3_lat) -
      (p1_lat - p2_lat) * (p1_lon - p3_lon)) / denom with hu
    have ht' : ((p3_lon - p1_lon) * (p1_lat - p2_lat) -
        (p3_lat - p1_lat) * (p1_lon - p2_lon)) / -denom = u := by
      rw [hu]
      rw [div_eq_div_iff (neg_ne_zero.mpr hne) hne]
      ring
    have hu' : -((p3_lon - p4_lon) * (p3_lat - p1_lat) -
        (p3_lat - p4_lat) * (p3_lon - p1_lon)) / -denom = t := by
      rw [ht]
      rw [div_eq_div_iff (neg_ne_zero.mpr hne) hne]
      ring
    rw [ht', hu'] at h
    by_cases hcond : 0 ≤ t ∧ t ≤ 1 ∧ 0 ≤ u ∧ u ≤ 1
    · rw [if_pos hcond]
      have hcond' : 0 ≤ u ∧ u ≤ 1 ∧ 0 ≤ t ∧ t ≤ 1 :=
        ⟨hcond.2.2.1, hcond.2.2.2, hcond.1, hcond.2.1⟩
      rw [if_pos hcond'] at h
      injection h with h
      subst h
      exact ⟨_, rfl, rfl, rfl⟩
    · rw [if_neg hcond]
      have hcond' : ¬(0 ≤ u ∧ u ≤ 1 ∧ 0 ≤ t ∧ t ≤ 1) :=
        fun hc => hcond ⟨hc.2.2.1, hc.2.2.2, hc.1, hc.2.1⟩
      rw [if_neg hcond'] at h
      exact absurd h (by simp)

/-- Any intersection record returned has both interpolation parameters in
`[0, 1]`. -/
theorem find_line_intersection_param_bounds (p1_lat p1_lon p2_lat p2_lon p3_lat p3_lon
    p4_lat p4_lon : ℝ) (r : SegIntersection)
    (h : find_line_intersection p1_lat p1_lon p2_lat p2_lon p3_lat p3_lon p4_lat p4_lon =
      some r) :
    0 ≤ r.t1 ∧ r.t1 ≤ 1 ∧ 0 ≤ r.t2 ∧ r.t2 ≤ 1 := by
  simp only [find_line_intersection] at h
  split at h
  · exact absurd h (by simp)
  · split at h
    · rename_i hcond
      injection h with h
      rw [← h]
      exact hcond
    · exact absurd h (by simp)

/-- The skip-chain of `find_intersecting_flight_pairs` in conjunction form. -/
theorem intersecting_pred_iff (f g : RawFlightData) :
    intersecting_pred f g ↔
      ¬(f.departure_airport = g.departure_airport ∨
        f.arrival_airport = g.arrival_airport) ∧
      ∃ a, flight_angle f g = some a ∧ a ≤ 10 ∧
      ∃ r, flight_chord_intersection f g = some r ∧
        within_hours
          (calculate_time_at_intersection f.scheduled_departure f.scheduled_arrival r.t1)
          (calculate_time_at_intersection g.scheduled_departure g.scheduled_arrival r.t2)
          1 := by
  unfold intersecting_pred
  constructor
  · rintro ⟨h1, h2⟩
    refine ⟨h1, ?_⟩
    cases han : flight_angle f g with
    | none => rw [han] at h2; exact h2.elim
    | some a =>
      rw [han] at h2
      have h2' : ¬ a > 10 ∧ (match flight_chord_intersection f g with
        | none => False
        | some inter =>
          within_hours
            (calculate_time_at_intersection f.scheduled_departure f.scheduled_arrival
              inter.t1)
            (calculate_time_at_intersection g.scheduled_departure g.scheduled_arrival
              inter.t2) 1) := h2
      refine ⟨a, rfl, not_lt.mp h2'.1, ?_⟩
      cases hci : flight_chord_intersection f g with
      | none =>
        have h3 := h2'.2
        rw [hci] at h3
        exact h3.elim
      | some r =>
        have h3 := h2'.2
        rw [hci] at h3
        exact ⟨r, rfl, h3⟩
  · rintro ⟨h1, a, han, h10, r, hci, hw⟩
    refine ⟨h1, ?_⟩
    rw [han]
    exact ⟨not_lt.mpr h10, by rw [hci]; exact hw⟩

/-- The skip-chain of `find_similar_flight_pairs` in conjunction form. -/
theorem similar_pred_iff (f g : RawFlightData) :
    similar_pred f g ↔
      ¬(f.departure_airport = g.departure_airport ∧
        f.arrival_airport = g.arrival_airport) ∧
      (f.departure_airport = g.departure_airport ∨
        f.arrival_airport = g.arrival_airport) ∧
      (∃ a, flight_angle f g = some a ∧ a ≤ 45) ∧
      ((f.departure_airport = g.departure_airport ∧
          within_three_hours f.scheduled_departure g.scheduled_departure) ∨
       (f.arrival_airport = g.arrival_airport ∧
          within_three_hours f.scheduled_arrival g.scheduled_arrival)) := by
  unfold similar_pred
  constructor
  · rintro ⟨h1, h2, h3, h4⟩
    refine ⟨h1, h2, ?_, h4⟩
    cases han : flight_angle f g with
    | none => rw [han] at h3; exact h3.elim
    | some a =>
      rw [han] at h3
      exact ⟨a, rfl, not_lt.mp h3⟩
  · rintro ⟨h1, h2, ⟨a, han, h45⟩, h4⟩
    exact ⟨h1, h2, by rw [han]; exact not_lt.mpr h45, h4⟩

theorem similar_pred_swap (f g : RawFlightData) (h : similar_pred f g) :
    similar_pred g f := by
  rw [similar_pred_iff] at h ⊢
  obtain ⟨h1, h2, ⟨a, han, h45⟩, h4⟩ := h
  refine ⟨fun hc => h1 ⟨hc.1.symm, hc.2.symm⟩, h2.imp Eq.symm Eq.symm,
    ⟨a, (flight_angle_comm g f).trans han, h45⟩, ?_⟩
  rcases h4 with ⟨hd, ht⟩ | ⟨ha, ht⟩
  · exact Or.inl ⟨hd.symm, (within_three_hours_symm _ _).mp ht⟩
  · exact Or.inr ⟨ha.symm, (within_three_hours_symm _ _).mp ht⟩

theorem intersecting_pred_swap (f g : RawFlightData) (h : intersecting_pred f g) :
    intersecting_pred g f := by
  rw [intersecting_pred_iff] at h ⊢
  obtain ⟨h1, a, han, h10, r, hci, hw⟩ := h
  refine ⟨fun hc => h1 (hc.imp Eq.symm Eq.symm), a,
    (flight_angle_comm g f).trans han, h10, ?_⟩
  obtain ⟨q, hq, hqt1, hqt2⟩ := find_line_intersection_swap
    g.dep_lat g.dep_lon g.arr_lat g.arr_lon
    f.dep_lat f.dep_lon f.arr_lat f.arr_lon r hci
  refine ⟨q, hq, ?_⟩
  rw [← hqt2, ← hqt1]
  exact (within_hours_symm _ _ _).mp hw

/-! ## C5 — classification of intersecting pairs -/

/-- **C5.** A pair of flights at positions `i < j` is classified as
intersecting if and only if: neither the departure nor the arrival airport is
shared, the course angle is defined and at most 10°, the planar segment
intersection of the two chords exists (with both interpolation parameters in
`[0, 1]`), and the two flights' linearly interpolated times at the
intersection (parameter `t1` for flight A, `t2` for flight B) differ by at
most 1 hour.  In particular, a crossing whose interpolated times differ by
90 minutes (5400 s) produces no pair. -/
theorem c5_intersecting_pair_classification (fs : List RawFlightData) (i j : ℕ)
    (hij : i < j) (hj : j < fs.length) (f g : RawFlightData)
    (hf : f = fs.get ⟨i, hij.trans hj⟩) (hg : g = fs.get ⟨j, hj⟩) :
    (mkIntersectingPair f g ∈ find_intersecting_flight_pairs fs ↔
      (f.departure_airport ≠ g.departure_airport ∧
       f.arrival_airport ≠ g.arrival_airport ∧
       (∃ a, flight_angle f g = some a ∧ a ≤ 10) ∧
       (∃ r, flight_chord_intersection f g = some r ∧
         (0 ≤ r.t1 ∧ r.t1 ≤ 1 ∧ 0 ≤ r.t2 ∧ r.t2 ≤ 1) ∧
         |calculate_time_at_intersection f.scheduled_departure f.scheduled_arrival r.t1 -
          calculate_time_at_intersection g.scheduled_departure g.scheduled_arrival r.t2|
           ≤ 3600))) ∧
    (∀ r, flight_chord_intersection f g = some r →
      |calculate_time_at_intersection f.scheduled_departure f.scheduled_arrival r.t1 -
       calculate_time_at_intersection g.scheduled_departure g.scheduled_arrival r.t2|
        = 5400 →
      mkIntersectingPair f g ∉ find_intersecting_flight_pairs fs) := by
  have hsub : List.Sublist [f, g] fs := by
    rw [hf, hg]
    exact get_pair_sublist fs i j hij hj
  have hmem : mkIntersectingPair f g ∈ find_intersecting_flight_pairs fs ↔
      intersecting_pred f g := by
    unfold find_intersecting_flight_pairs
    rw [pairScan_mem]
    constructor
    · rintro ⟨x, y, hs2, hP, heq⟩
      simp only [mkIntersectingPair, FlightPair.mk.injEq] at heq
      rw [heq.2.1, heq.2.2.1]
      exact hP
    · intro hP
      exact ⟨f, g, hsub, hP, rfl⟩
  constructor
  · rw [hmem, intersecting_pred_iff]
    constructor
    · rintro ⟨h1, a, han, h10, r, hci, hw⟩
      rw [not_or] at h1
      refine ⟨h1.1, h1.2, ⟨a, han, h10⟩, r, hci,
        find_line_intersection_param_bounds _ _ _ _ _ _ _ _ r hci, ?_⟩
      unfold within_hours at hw
      linarith
    · rintro ⟨h1, h2, ⟨a, han, h10⟩, r, hci, -, hw⟩
      refine ⟨not_or.mpr ⟨h1, h2⟩, a, han, h10, r, hci, ?_⟩
      unfold within_hours
      linarith
  · intro r hci h90 hmem2
    rw [hmem, intersecting_pred_iff] at hmem2
    obtain ⟨-, a, -, -, r', hci', hw⟩ := hmem2
    rw [hci] at hci'
    injection hci' with hrr
    subst hrr
    unfold within_hours at hw
    rw [h90] at hw
    norm_num at hw

def c5_flightF : RawFlightData :=
  { flight_id := 10, departure_airport := "PPP", arrival_airport := "QQQ",
    scheduled_departure := 0, scheduled_arrival := 7200,
    dep_lat := -1, dep_lon := 0, arr_lat := 1, arr_lon := 0 }

def c5_flightG : RawFlightData :=
  { flight_id := 11, departure_airport := "RRR", arrival_airport := "SSS",
    scheduled_departure := 5400, scheduled_arrival := 12600,
    dep_lat := 0, dep_lon := -1, arr_lat := 0, arr_lon := 1 }

theorem c5_concrete_intersection :
    flight_chord_intersection c5_flightF c5_flightG =
      some ⟨0, 0, 1 / 2, 1 / 2⟩ := by
  show find_line_intersection (-1) 0 1 0 0 (-1) 0 1 = some ⟨0, 0, 1 / 2, 1 / 2⟩
  simp only [find_line_intersection]
  rw [show ((0:ℝ) - 0) * (0 - 0) - (-1 - 1) * (-1 - 1) = -4 by norm_num]
  rw [if_neg (by rw [abs_neg, abs_of_nonneg (by norm_num : (0:ℝ) ≤ 4)]; norm_num)]
  rw [if_pos (by norm_num)]
  norm_num

/-- Witness for C5 ("in particular" part): the two concrete crossing flights
whose interpolated times at the crossing are 90 minutes apart produce no
intersecting pair. -/
theorem c5_witness :
    mkIntersectingPair c5_flightF c5_flightG ∉
      find_intersecting_flight_pairs [c5_flightF, c5_flightG] := by
  have h90 : |calculate_time_at_intersection c5_flightF.scheduled_departure
      c5_flightF.scheduled_arrival
      ((⟨0, 0, 1 / 2, 1 / 2⟩ : SegIntersection).t1) -
      calculate_time_at_intersection c5_flightG.scheduled_departure
      c5_flightG.scheduled_arrival
      ((⟨0, 0, 1 / 2, 1 / 2⟩ : SegIntersection).t2)| = 5400 := by
    show |calculate_time_at_intersection 0 7200 (1 / 2) -
      calculate_time_at_intersection 5400 12600 (1 / 2)| = 5400
    unfold calculate_time_at_intersection
    rw [show (0:ℝ) + (7200 - 0) * (1 / 2) - (5400 + (12600 - 5400) * (1 / 2)) =
      -5400 by norm_num]
    rw [abs_neg, abs_of_nonneg (by norm_num : (0:ℝ) ≤ 5400)]
  exact (c5_intersecting_pair_classification [c5_flightF, c5_flightG] 0 1
    (by norm_num) (by simp) c5_flightF c5_flightG rfl rfl).2
    ⟨0, 0, 1 / 2, 1 / 2⟩ c5_concrete_intersection h90

/-! ## C8 — dedup and order-independence of pair discovery -/

/-- The unordered pair of flight ids carried by a `FlightPair`. -/
def pair_idset (p : FlightPair) : Finset ℕ :=
  {p.flight1.flight_id, p.flight2.flight_id}

/-- **C8.** Pair discovery is deterministic (running it twice on the same list
gives identical output); the set of unordered id-pairs it emits is invariant
under permutation of the input flight list, for both the similar and the
intersecting finder; and with duplicate-free flight ids the output never
contains a pair with equal ids nor both orientations `(A,B)` and `(B,A)` of
the same unordered pair — each unordered pair of distinct flights is examined
at most once. -/
theorem c8_pair_discovery_dedup (fs fs' : List RawFlightData) (hperm : fs.Perm fs') :
    (find_similar_flight_pairs fs = find_similar_flight_pairs fs ∧
     find_intersecting_flight_pairs fs = find_intersecting_flight_pairs fs) ∧
    (∀ s : Finset ℕ,
      ((∃ p ∈ find_similar_flight_pairs fs, pair_idset p = s) ↔
       (∃ p ∈ find_similar_flight_pairs fs', pair_idset p = s)) ∧
      ((∃ p ∈ find_intersecting_flight_pairs fs, pair_idset p = s) ↔
       (∃ p ∈ find_intersecting_flight_pairs fs', pair_idset p = s))) ∧
    ((fs.map RawFlightData.flight_id).Nodup →
      ∀ p q,
        (p ∈ find_similar_flight_pairs fs ∨ p ∈ find_intersecting_flight_pairs fs) →
        (q ∈ find_similar_flight_pairs fs ∨ q ∈ find_intersecting_flight_pairs fs) →
        p.flight1.flight_id ≠ p.flight2.flight_id ∧
        ¬(q.flight1.flight_id = p.flight2.flight_id ∧
          q.flight2.flight_id = p.flight1.flight_id)) := by
  refine ⟨⟨rfl, rfl⟩, ?_, ?_⟩
  · intro s
    exact ⟨pairScan_mem_unordered similar_pred mkSimilarPair pair_idset
        similar_pred_swap (fun x y => Finset.pair_comm _ _) fs fs' hperm s,
      pairScan_mem_unordered intersecting_pred mkIntersectingPair pair_idset
        intersecting_pred_swap (fun x y => Finset.pair_comm _ _) fs fs' hperm s⟩
  · intro hnd p q hp hq
    have extract : ∀ p', (p' ∈ find_similar_flight_pairs fs ∨
        p' ∈ find_intersecting_flight_pairs fs) →
        ∃ x y, List.Sublist [x, y] fs ∧ p'.flight1 = x ∧ p'.flight2 = y := by
      intro p' hp'
      rcases hp' with hp' | hp'
      · rw [find_similar_flight_pairs, pairScan_mem] at hp'
        obtain ⟨x, y, hsub2, -, rfl⟩ := hp'
        exact ⟨x, y, hsub2, rfl, rfl⟩
      · rw [find_intersecting_flight_pairs, pairScan_mem] at hp'
        obtain ⟨x, y, hsub2, -, rfl⟩ := hp'
        exact ⟨x, y, hsub2, rfl, rfl⟩
    obtain ⟨x, y, hxy, hp1, hp2⟩ := extract p hp
    obtain ⟨x', y', hxy', hq1, hq2⟩ := extract q hq
    have hids1 : List.Sublist [x.flight_id, y.flight_id]
        (fs.map RawFlightData.flight_id) := by
      simpa using hxy.map RawFlightData.flight_id
    have hne : x.flight_id ≠ y.flight_id := by
      have hnd2 : ([x.flight_id, y.flight_id] : List ℕ).Nodup :=
        List.Nodup.sublist hids1 hnd
      simp at hnd2
      exact hnd2
    refine ⟨by rw [hp1, hp2]; exact hne, ?_⟩
    rintro ⟨hqa, hqb⟩
    rw [hq1, hp2] at hqa
    rw [hq2, hp1] at hqb
    have hids2 : List.Sublist [y.flight_id, x.flight_id]
        (fs.map RawFlightData.flight_id) := by
      rw [← hqa, ← hqb]
      simpa using hxy'.map RawFlightData.flight_id
    exact hne (sublist_pair_antisym _ hnd _ _ hids1 hids2)

def c8_flightA : RawFlightData :=
  { flight_id := 21, departure_airport := "AAA", arrival_airport := "BBB",
    scheduled_departure := 0, scheduled_arrival := 3600,
    dep_lat := 0, dep_lon := 0, arr_lat := 1, arr_lon := 1 }

def c8_flightB : RawFlightData :=
  { flight_id := 22, departure_airport := "CCC", arrival_airport := "DDD",
    scheduled_departure := 0, scheduled_arrival := 3600,
    dep_lat := 2, dep_lon := 2, arr_lat := 3, arr_lon := 3 }

/-- Witness for C8 at a concrete two-flight list and its transposition. -/
theorem c8_witness :
    find_similar_flight_pairs [c8_flightA, c8_flightB] =
      find_similar_flight_pairs [c8_flightA, c8_flightB] ∧
    find_intersecting_flight_pairs [c8_flightA, c8_flightB] =
      find_intersecting_flight_pairs [c8_flightA, c8_flightB] :=
  (c8_pair_discovery_dedup [c8_flightA, c8_flightB] [c8_flightB, c8_flightA]
    (List.Perm.swap c8_flightB c8_flightA [])).1

end
